import Mathlib

/-!
Verification development for the `simplegrid` regridding engine
(`src/simplegrid/regrid.py`).

The Python code is shallowly embedded: numpy 2-D arrays become `Mat`
(a shape together with a total value function), the `np.nditer` while
loops become `List.foldl` over the row-major list of multi-indices,
numpy slice assignments become guarded functional updates, and Python
slice index arithmetic (including negative starts/stops and clipping)
is modelled by `pyAdjust`/`sliceLen`.  The external geodesic service
(`pyproj.Geod`) is an abstract parameter `Geodesy`, as the spec treats
it as an external collaborator.  Coordinates are modelled as rationals.
-/

set_option autoImplicit false

namespace Simplegrid

/-- A 2-D array of scalars: a shape plus a total value function.
Mirrors a numpy `ndarray` of floats; reads outside the shape never occur
in the embedded code paths. -/
structure Mat where
  rows : ℕ
  cols : ℕ
  data : ℕ → ℕ → ℚ

/-- `np.zeros((r, c))`. -/
def Mat.zeros (r c : ℕ) : Mat := ⟨r, c, fun _ _ => 0⟩

instance : Inhabited Mat := ⟨Mat.zeros 0 0⟩

/-- Point assignment `m[i, j] = v`. -/
def Mat.set (m : Mat) (i j : ℕ) (v : ℚ) : Mat :=
  { m with data := fun i' j' => if i' = i ∧ j' = j then v else m.data i' j' }

/-- Column-slice assignment `m[ilo:ihi, j] = vals`, where the `k`-th value
written (at row `ilo + k`) is `f k`.  This is the semantics of a numpy
1-D slice assignment along axis 0. -/
def Mat.setStripI (m : Mat) (ilo ihi j : ℕ) (f : ℕ → ℚ) : Mat :=
  { m with data := fun i' j' =>
      if j' = j ∧ ilo ≤ i' ∧ i' < ihi then f (i' - ilo) else m.data i' j' }

/-- Row-slice assignment `m[i, jlo:jhi] = vals`. -/
def Mat.setStripJ (m : Mat) (i jlo jhi : ℕ) (f : ℕ → ℚ) : Mat :=
  { m with data := fun i' j' =>
      if i' = i ∧ jlo ≤ j' ∧ j' < jhi then f (j' - jlo) else m.data i' j' }

/-- The row-major list of multi-indices of an `R × C` iteration space:
the order in which `np.nditer(..., flags=[multi_index])` visits a 2-D
selection. -/
def rowMajor (R C : ℕ) : List (ℕ × ℕ) :=
  (List.range R).flatMap fun r => (List.range C).map fun c => (r, c)

/-- Python slice-bound adjustment for a positive step
(CPython `PySlice_AdjustIndices`): negative indices wrap by the axis
length and the result is clipped to `[0, len]`. -/
def pyAdjust (x : ℤ) (len : ℕ) : ℤ :=
  if x < 0 then max (x + len) 0 else min x len

/-- Number of elements selected by the Python slice `start:stop:step`
(positive `step`) on an axis of length `len`. -/
def sliceLen (start stop : ℤ) (step : ℕ) (len : ℕ) : ℕ :=
  let s := pyAdjust start len
  let e := pyAdjust stop len
  if s < e then ((e - s - 1).toNat) / step + 1 else 0

/-- The external geodesic service (`pyproj.Geod`), per spec §6: the
inverse problem `inv` returns `(forward_azimuth, back_azimuth, distance)`;
`npts lon1 lat1 lon2 lat2 n k` is the `k`-th (0-based, `k < n`) of `n`
equally spaced intermediate points along the geodesic; `a` is the
equatorial radius used to scale areas. -/
structure Geodesy where
  inv : ℚ → ℚ → ℚ → ℚ → ℚ × ℚ × ℚ
  npts : ℚ → ℚ → ℚ → ℚ → ℕ → ℕ → ℚ × ℚ
  a : ℚ

/-- Modelled from the spec: `util.nearest` (spec §4.1, not under `src/`).
Exhaustive row-major scan over all corner points, retaining the minimum
geodesic distance; ties keep the first-encountered index.  Returns
`(i, j, distance)`. -/
def nearest (g : Geodesy) (lon lat : ℚ) (XG YG : Mat) : ℕ × ℕ × ℚ :=
  (rowMajor XG.rows XG.cols).foldl
    (fun best rc =>
      let d := (g.inv lon lat (XG.data rc.1 rc.2) (YG.data rc.1 rc.2)).2.2
      if d < best.2.2 then (rc.1, rc.2, d) else best)
    (0, 0, (g.inv lon lat (XG.data 0 0) (YG.data 0 0)).2.2)

/-- `num_compute_grid_rows = (iUB-iLB)*lon_subscale*2 + 1` with
`iLB = ilb-1`, `iUB = iub+1` (Python ints). -/
def cgRows (ilb iub L : ℕ) : ℕ :=
  (((iub : ℤ) + 1 - ((ilb : ℤ) - 1)).toNat) * (L * 2) + 1

/-- `num_compute_grid_cols = (jUB-jLB)*lat_subscale*2 + 1`. -/
def cgCols (jlb jub S : ℕ) : ℕ :=
  (((jub : ℤ) + 1 - ((jlb : ℤ) - 1)).toNat) * (S * 2) + 1

/-- Step 1 seeding loop body: copy one original corner point of the
"plus one" source selection into the compute grid at
`(i*lon_subscale*2, j*lat_subscale*2)`. -/
def seedStep (XG YG : Mat) (aI aJ L S : ℕ) (st : Mat × Mat) (rc : ℕ × ℕ) :
    Mat × Mat :=
  (st.1.set (rc.1 * (L * 2)) (rc.2 * (S * 2)) (XG.data (aI + rc.1) (aJ + rc.2)),
   st.2.set (rc.1 * (L * 2)) (rc.2 * (S * 2)) (YG.data (aI + rc.1) (aJ + rc.2)))

/-- Step 1: allocate `compute_grid_xg`/`compute_grid_yg` as zeros and map
the source values of `mitgrid[XG][iLB:iUB+1, jLB:jUB+1]` to the
corresponding compute-grid locations (`regrid.py` lines 122-148).  The
selection bounds follow Python slice semantics (a negative `iLB` wraps).
This fold is the loop's effect once the `np.nditer` is constructed; the
construction itself fails on a zero-sized selection
(`ValueError: Iteration of zero-sized operands is not enabled`), a check
performed by the first guard of `regridCore`. -/
def seedComputeGrid (XG YG : Mat) (ilb jlb iub jub L S : ℕ) : Mat × Mat :=
  let nr := cgRows ilb iub L
  let nc := cgCols jlb jub S
  let aI := (pyAdjust ((ilb : ℤ) - 1) XG.rows).toNat
  let aJ := (pyAdjust ((jlb : ℤ) - 1) XG.cols).toNat
  let sr := sliceLen ((ilb : ℤ) - 1) ((iub : ℤ) + 2) 1 XG.rows
  let sc := sliceLen ((jlb : ℤ) - 1) ((jub : ℤ) + 2) 1 XG.cols
  (rowMajor sr sc).foldl (seedStep XG YG aI aJ L S)
    (Mat.zeros nr nc, Mat.zeros nr nc)

/-- Step 2a loop body: between the pair of seeded points at rows
`r*L*2` and `(r+1)*L*2` of column `c*S*2`, compute `L*2-1` equally
spaced geodesic intermediate points and store them at the intervening
rows (`regrid.py` lines 181-202). -/
def fillXStep (g : Geodesy) (L S : ℕ) (st : Mat × Mat) (rc : ℕ × ℕ) :
    Mat × Mat :=
  let i0 := rc.1 * (L * 2)
  let i1 := (rc.1 + 1) * (L * 2)
  let j0 := rc.2 * (S * 2)
  let pts := g.npts (st.1.data i0 j0) (st.2.data i0 j0)
    (st.1.data i1 j0) (st.2.data i1 j0) (L * 2 - 1)
  (st.1.setStripI (i0 + 1) i1 j0 (fun k => (pts k).1),
   st.2.setStripI (i0 + 1) i1 j0 (fun k => (pts k).2))

/-- Step 2a: iterate over
`compute_grid_xg[:-1:lon_subscale*2, ::lat_subscale*2]`, filling in
x-direction edges (`regrid.py` lines 177-202).  The zero-step slicing
error and the zero-sized-iterator error raised before this loop can run
are checked by the guards of `regridCore`. -/
def fillX (g : Geodesy) (L S : ℕ) (st : Mat × Mat) : Mat × Mat :=
  let R := sliceLen 0 (-1) (L * 2) st.1.rows
  let C := sliceLen 0 (st.1.cols : ℤ) (S * 2) st.1.cols
  (rowMajor R C).foldl (fillXStep g L S) st

/-- Step 2b loop body: between the pair of now-populated points at
columns `c*S*2` and `(c+1)*S*2` of row `i`, compute `S*2-1` equally
spaced geodesic intermediate points and store them at the intervening
columns (`regrid.py` lines 219-240). -/
def fillYStep (g : Geodesy) (S : ℕ) (st : Mat × Mat) (rc : ℕ × ℕ) :
    Mat × Mat :=
  let i := rc.1
  let j0 := rc.2 * (S * 2)
  let j1 := (rc.2 + 1) * (S * 2)
  let pts := g.npts (st.1.data i j0) (st.2.data i j0)
    (st.1.data i j1) (st.2.data i j1) (S * 2 - 1)
  (st.1.setStripJ i (j0 + 1) j1 (fun k => (pts k).1),
   st.2.setStripJ i (j0 + 1) j1 (fun k => (pts k).2))

/-- Step 2b: iterate over
`compute_grid_xg[:, :-1:lat_subscale*2]`, filling in all y-direction
values (`regrid.py` lines 215-240).  As with `fillX`, the slicing and
iterator-construction errors are checked by the guards of `regridCore`. -/
def fillY (g : Geodesy) (S : ℕ) (st : Mat × Mat) : Mat × Mat :=
  let R := sliceLen 0 (st.1.rows : ℤ) 1 st.1.rows
  let C := sliceLen 0 (-1) (S * 2) st.1.cols
  (rowMajor R C).foldl (fillYStep g S) st

/-- Steps 1-2: the fully populated compute grid, built by seeding then
the axis-1 fill then the axis-2 fill, in that order. -/
def computeGrid (g : Geodesy) (XG YG : Mat) (ilb jlb iub jub L S : ℕ) :
    Mat × Mat :=
  fillY g S (fillX g L S (seedComputeGrid XG YG ilb jlb iub jub L S))

/-- Modelled from the spec: step 3, `util.squad_uarea` composed with
`util.lonlat2cart` (spec §4.3; neither is under `src/`).  One scalar per
minimal 2x2 block of adjacent lattice points (dimensions one less than
the compute grid in each axis); the unit-sphere quadrilateral-area
formula itself is the abstract kernel `kern` on the four corner
(lon, lat) points, and every elemental area is scaled by the square of
the reference radius `a`. -/
def computeAreas (kern : ℚ × ℚ → ℚ × ℚ → ℚ × ℚ → ℚ × ℚ → ℚ) (a : ℚ)
    (cg : Mat × Mat) : Mat :=
  ⟨cg.1.rows - 1, cg.1.cols - 1,
   fun i j =>
     kern (cg.1.data i j, cg.2.data i j)
       (cg.1.data (i + 1) j, cg.2.data (i + 1) j)
       (cg.1.data i (j + 1), cg.2.data i (j + 1))
       (cg.1.data (i + 1) (j + 1), cg.2.data (i + 1) (j + 1)) * a ^ 2⟩

/-- A strided 2-D slice `m[fI:lI:sI, fJ:lJ:sJ]` of a matrix, as a view:
shape by Python slice semantics, element `(r, c)` at base index
`(adjusted fI + sI*r, adjusted fJ + sJ*c)`. -/
def sliceMat (m : Mat) (fI lI : ℤ) (sI : ℕ) (fJ lJ : ℤ) (sJ : ℕ) : Mat :=
  ⟨sliceLen fI lI sI m.rows, sliceLen fJ lJ sJ m.cols,
   fun r c => m.data ((pyAdjust fI m.rows).toNat + sI * r)
     ((pyAdjust fJ m.cols).toNat + sJ * c)⟩

/-- Element `(r, c)` of the strided selection `m[fI:…:2, fJ:…:2]` used as
`it[0]` by the step-4 nditer loops. -/
def selRead (m : Mat) (fI fJ : ℤ) (r c : ℕ) : ℚ :=
  m.data ((pyAdjust fI m.rows).toNat + 2 * r) ((pyAdjust fJ m.cols).toNat + 2 * c)

/-- An output-field nditer loop: allocate `np.zeros((R, C))`, then for
every multi-index `(m, n)` of the `iR × iC` iteration selection store
`val m n` at `out[m, n]` (`regrid.py` step 4 loops).  This is the loop's
effect once the `np.nditer` is constructed; constructing it over a
zero-sized (`iR = 0` or `iC = 0`) selection instead raises `ValueError`,
which is checked, per field, by the step-4 guard of `regridCore`. -/
def fillOver (R C iR iC : ℕ) (val : ℕ → ℕ → ℚ) : Mat :=
  (rowMajor iR iC).foldl (fun acc rc => acc.set rc.1 rc.2 (val rc.1 rc.2))
    (Mat.zeros R C)

/-- `outgrid[XC]` (and `YC` via `cgy`): direct compute-grid partition,
`regrid.py` lines 285-299. -/
def outXC (cgm : Mat) (ilb jlb iub jub L S : ℕ) : Mat :=
  sliceMat cgm ((L : ℤ) * 2 + 1)
    ((L : ℤ) * 2 + 1 + (((iub : ℤ) - ilb) * L - 1) * 2 + 1) 2
    ((S : ℤ) * 2 + 1) ((S : ℤ) * 2 + 1 + (((jub : ℤ) - jlb) * S - 1) * 2 + 1) 2

/-- `outgrid[XG]` (and `YG` via `cgy`): direct compute-grid partition,
`regrid.py` lines 309-323. -/
def outXGf (cgm : Mat) (ilb jlb iub jub L S : ℕ) : Mat :=
  sliceMat cgm ((L : ℤ) * 2) ((L : ℤ) * 2 + ((iub : ℤ) - ilb) * L * 2 + 1) 2
    ((S : ℤ) * 2) ((S : ℤ) * 2 + ((jub : ℤ) - jlb) * S * 2 + 1) 2

/-- `outgrid[DXG]`: for every pair of vertically adjacent `XG`/`YG`
points, the geodesic inverse-problem distance (`regrid.py` lines
338-349); iterates over `outgrid[XG][:-1, :]`. -/
def outDXG (g : Geodesy) (cgx cgy : Mat) (ilb jlb iub jub L S : ℕ) : Mat :=
  let XGf := outXGf cgx ilb jlb iub jub L S
  let YGf := outXGf cgy ilb jlb iub jub L S
  fillOver ((iub - ilb) * L) ((jub - jlb) * S + 1)
    (sliceLen 0 (-1) 1 XGf.rows) (sliceLen 0 (XGf.cols : ℤ) 1 XGf.cols)
    (fun m n =>
      (g.inv (XGf.data m n) (YGf.data m n)
        (XGf.data (m + 1) n) (YGf.data (m + 1) n)).2.2)

/-- `outgrid[DYG]` (`regrid.py` lines 357-368); iterates over
`outgrid[XG][:, :-1]`. -/
def outDYG (g : Geodesy) (cgx cgy : Mat) (ilb jlb iub jub L S : ℕ) : Mat :=
  let XGf := outXGf cgx ilb jlb iub jub L S
  let YGf := outXGf cgy ilb jlb iub jub L S
  fillOver ((iub - ilb) * L + 1) ((jub - jlb) * S)
    (sliceLen 0 (XGf.rows : ℤ) 1 XGf.rows) (sliceLen 0 (-1) 1 XGf.cols)
    (fun m n =>
      (g.inv (XGf.data m n) (YGf.data m n)
        (XGf.data m (n + 1)) (YGf.data m (n + 1))).2.2)

/-- `outgrid[RAC]`: sum of the 4 elemental compute-area cells around each
tracer-cell center (`regrid.py` lines 375-402); the anchor selection has
offsets `(lon_subscale*2, lat_subscale*2)` and the nditer-to-array index
maps are `i_ca i = 2*i + 2*lon_subscale`, `j_ca j = 2*j + 2*lat_subscale`. -/
def outRAC (ca : Mat) (ilb jlb iub jub L S : ℕ) : Mat :=
  let fI : ℤ := (L : ℤ) * 2
  let fJ : ℤ := (S : ℤ) * 2
  fillOver ((iub - ilb) * L) ((jub - jlb) * S)
    (sliceLen fI (fI + (((iub : ℤ) - ilb) * L - 1) * 2 + 1) 2 ca.rows)
    (sliceLen fJ (fJ + (((jub : ℤ) - jlb) * S - 1) * 2 + 1) 2 ca.cols)
    (fun m n =>
      selRead ca fI fJ m n
      + ca.data (2 * m + 2 * L + 1) (2 * n + 2 * S)
      + ca.data (2 * m + 2 * L + 1) (2 * n + 2 * S + 1)
      + ca.data (2 * m + 2 * L) (2 * n + 2 * S + 1))

/-- `outgrid[DXC]` (`regrid.py` lines 415-446): distance between
compute-grid points 2 index-steps apart in axis 1, with index maps
`i_cg i = 2*lon_subscale - 1 + 2*i`, `j_cg j = 2*lat_subscale + 1 + 2*j`. -/
def outDXC (g : Geodesy) (cgx cgy : Mat) (ilb jlb iub jub L S : ℕ) : Mat :=
  let fI : ℤ := (L : ℤ) * 2 - 1
  let fJ : ℤ := (S : ℤ) * 2 + 1
  fillOver ((iub - ilb) * L + 1) ((jub - jlb) * S)
    (sliceLen fI (fI + ((iub : ℤ) - ilb) * L * 2 + 1) 2 cgx.rows)
    (sliceLen fJ (fJ + (((jub : ℤ) - jlb) * S - 1) * 2 + 1) 2 cgx.cols)
    (fun m n =>
      (g.inv (selRead cgx fI fJ m n) (selRead cgy fI fJ m n)
        (cgx.data (2 * L - 1 + 2 * (m + 1)) (2 * S + 1 + 2 * n))
        (cgy.data (2 * L - 1 + 2 * (m + 1)) (2 * S + 1 + 2 * n))).2.2)

/-- `outgrid[DYC]` (`regrid.py` lines 454-485): index maps
`i_cg i = 2*lon_subscale + 1 + 2*i`, `j_cg j = 2*lat_subscale - 1 + 2*j`. -/
def outDYC (g : Geodesy) (cgx cgy : Mat) (ilb jlb iub jub L S : ℕ) : Mat :=
  let fI : ℤ := (L : ℤ) * 2 + 1
  let fJ : ℤ := (S : ℤ) * 2 - 1
  fillOver ((iub - ilb) * L) ((jub - jlb) * S + 1)
    (sliceLen fI (fI + (((iub : ℤ) - ilb) * L - 1) * 2 + 1) 2 cgx.rows)
    (sliceLen fJ (fJ + ((jub : ℤ) - jlb) * S * 2 + 1) 2 cgx.cols)
    (fun m n =>
      (g.inv (selRead cgx fI fJ m n) (selRead cgy fI fJ m n)
        (cgx.data (2 * L + 1 + 2 * m) (2 * S - 1 + 2 * (n + 1)))
        (cgy.data (2 * L + 1 + 2 * m) (2 * S - 1 + 2 * (n + 1)))).2.2)

/-- `outgrid[RAZ]` (`regrid.py` lines 492-518): index maps
`i_ca i = 2*lon_subscale - 1 + 2*i`, `j_ca j = 2*lat_subscale - 1 + 2*j`. -/
def outRAZ (ca : Mat) (ilb jlb iub jub L S : ℕ) : Mat :=
  let fI : ℤ := (L : ℤ) * 2 - 1
  let fJ : ℤ := (S : ℤ) * 2 - 1
  fillOver ((iub - ilb) * L + 1) ((jub - jlb) * S + 1)
    (sliceLen fI (fI + ((iub : ℤ) - ilb) * L * 2 + 1) 2 ca.rows)
    (sliceLen fJ (fJ + ((jub : ℤ) - jlb) * S * 2 + 1) 2 ca.cols)
    (fun m n =>
      selRead ca fI fJ m n
      + ca.data (2 * L - 1 + 2 * m + 1) (2 * S - 1 + 2 * n)
      + ca.data (2 * L - 1 + 2 * m + 1) (2 * S - 1 + 2 * n + 1)
      + ca.data (2 * L - 1 + 2 * m) (2 * S - 1 + 2 * n + 1))

/-- `outgrid[DXV]` (`regrid.py` lines 530-558): index maps
`i_cg i = 2*lon_subscale - 1 + 2*i`, `j_cg j = 2*lat_subscale + 2*j`. -/
def outDXV (g : Geodesy) (cgx cgy : Mat) (ilb jlb iub jub L S : ℕ) : Mat :=
  let fI : ℤ := (L : ℤ) * 2 - 1
  let fJ : ℤ := (S : ℤ) * 2
  fillOver ((iub - ilb) * L + 1) ((jub - jlb) * S + 1)
    (sliceLen fI (fI + ((iub : ℤ) - ilb) * L * 2 + 1) 2 cgx.rows)
    (sliceLen fJ (fJ + ((jub : ℤ) - jlb) * S * 2 + 1) 2 cgx.cols)
    (fun m n =>
      (g.inv (selRead cgx fI fJ m n) (selRead cgy fI fJ m n)
        (cgx.data (2 * L - 1 + 2 * (m + 1)) (2 * S + 2 * n))
        (cgy.data (2 * L - 1 + 2 * (m + 1)) (2 * S + 2 * n))).2.2)

/-- `outgrid[DYF]` (`regrid.py` lines 565-596): index maps
`i_cg i = 2*lon_subscale + 1 + 2*i`, `j_cg j = 2*lat_subscale + 2*j`. -/
def outDYF (g : Geodesy) (cgx cgy : Mat) (ilb jlb iub jub L S : ℕ) : Mat :=
  let fI : ℤ := (L : ℤ) * 2 + 1
  let fJ : ℤ := (S : ℤ) * 2
  fillOver ((iub - ilb) * L) ((jub - jlb) * S)
    (sliceLen fI (fI + (((iub : ℤ) - ilb) * L - 1) * 2 + 1) 2 cgx.rows)
    (sliceLen fJ (fJ + (((jub : ℤ) - jlb) * S - 1) * 2 + 1) 2 cgx.cols)
    (fun m n =>
      (g.inv (selRead cgx fI fJ m n) (selRead cgy fI fJ m n)
        (cgx.data (2 * L + 1 + 2 * m) (2 * S + 2 * (n + 1)))
        (cgy.data (2 * L + 1 + 2 * m) (2 * S + 2 * (n + 1)))).2.2)

/-- `outgrid[RAW]` (`regrid.py` lines 604-630): index maps
`i_ca i = 2*lon_subscale - 1 + 2*i`, `j_ca j = 2*lat_subscale + 2*j`. -/
def outRAW (ca : Mat) (ilb jlb iub jub L S : ℕ) : Mat :=
  let fI : ℤ := (L : ℤ) * 2 - 1
  let fJ : ℤ := (S : ℤ) * 2
  fillOver ((iub - ilb) * L + 1) ((jub - jlb) * S)
    (sliceLen fI (fI + ((iub : ℤ) - ilb) * L * 2 + 1) 2 ca.rows)
    (sliceLen fJ (fJ + (((jub : ℤ) - jlb) * S - 1) * 2 + 1) 2 ca.cols)
    (fun m n =>
      selRead ca fI fJ m n
      + ca.data (2 * L - 1 + 2 * m + 1) (2 * S + 2 * n)
      + ca.data (2 * L - 1 + 2 * m + 1) (2 * S + 2 * n + 1)
      + ca.data (2 * L - 1 + 2 * m) (2 * S + 2 * n + 1))

/-- `outgrid[DXF]` (`regrid.py` lines 642-670): index maps
`i_cg i = 2*lon_subscale + 2*i`, `j_cg j = 2*lat_subscale + 1 + 2*j`. -/
def outDXF (g : Geodesy) (cgx cgy : Mat) (ilb jlb iub jub L S : ℕ) : Mat :=
  let fI : ℤ := (L : ℤ) * 2
  let fJ : ℤ := (S : ℤ) * 2 + 1
  fillOver ((iub - ilb) * L) ((jub - jlb) * S)
    (sliceLen fI (fI + (((iub : ℤ) - ilb) * L - 1) * 2 + 1) 2 cgx.rows)
    (sliceLen fJ (fJ + (((jub : ℤ) - jlb) * S - 1) * 2 + 1) 2 cgx.cols)
    (fun m n =>
      (g.inv (selRead cgx fI fJ m n) (selRead cgy fI fJ m n)
        (cgx.data (2 * L + 2 * (m + 1)) (2 * S + 1 + 2 * n))
        (cgy.data (2 * L + 2 * (m + 1)) (2 * S + 1 + 2 * n))).2.2)

/-- `outgrid[DYU]` (`regrid.py` lines 677-705): index maps
`i_cg i = 2*lon_subscale + 2*i`, `j_cg j = 2*lat_subscale - 1 + 2*j`. -/
def outDYU (g : Geodesy) (cgx cgy : Mat) (ilb jlb iub jub L S : ℕ) : Mat :=
  let fI : ℤ := 2 * (L : ℤ)
  let fJ : ℤ := 2 * (S : ℤ) - 1
  fillOver ((iub - ilb) * L + 1) ((jub - jlb) * S + 1)
    (sliceLen fI (fI + ((iub : ℤ) - ilb) * 2 * L + 1) 2 cgx.rows)
    (sliceLen fJ (fJ + ((jub : ℤ) - jlb) * 2 * S + 1) 2 cgx.cols)
    (fun m n =>
      (g.inv (selRead cgx fI fJ m n) (selRead cgy fI fJ m n)
        (cgx.data (2 * L + 2 * m) (2 * S - 1 + 2 * (n + 1)))
        (cgy.data (2 * L + 2 * m) (2 * S - 1 + 2 * (n + 1)))).2.2)

/-- `outgrid[RAS]` (`regrid.py` lines 713-736): index maps
`i_ca i = 2*lon_subscale + 2*i`, `j_ca j = 2*lat_subscale - 1 + 2*j`. -/
def outRAS (ca : Mat) (ilb jlb iub jub L S : ℕ) : Mat :=
  let fI : ℤ := 2 * (L : ℤ)
  let fJ : ℤ := 2 * (S : ℤ) - 1
  fillOver ((iub - ilb) * L) ((jub - jlb) * S + 1)
    (sliceLen fI (fI + (((iub : ℤ) - ilb) * L - 1) * 2 + 1) 2 ca.rows)
    (sliceLen fJ (fJ + ((jub : ℤ) - jlb) * S * 2 + 1) 2 ca.cols)
    (fun m n =>
      selRead ca fI fJ m n
      + ca.data (2 * L + 2 * m + 1) (2 * S - 1 + 2 * n)
      + ca.data (2 * L + 2 * m + 1) (2 * S - 1 + 2 * n + 1)
      + ca.data (2 * L + 2 * m) (2 * S - 1 + 2 * n + 1))

/-- The 16 recognized output quantities (`outgrid` dictionary). -/
structure OutGrid where
  XC : Mat
  YC : Mat
  XG : Mat
  YG : Mat
  DXG : Mat
  DYG : Mat
  RAC : Mat
  DXC : Mat
  DYC : Mat
  RAZ : Mat
  DXV : Mat
  DYF : Mat
  RAW : Mat
  DXF : Mat
  DYU : Mat
  RAS : Mat

instance : Inhabited OutGrid :=
  ⟨⟨default, default, default, default, default, default, default, default,
    default, default, default, default, default, default, default, default⟩⟩

/-- Failure modes.  `valueErrorZeroSize` is the Python `ValueError`
("Iteration of zero-sized operands is not enabled") raised by an
`np.nditer` constructed over a zero-sized selection (the code never
passes `zerosize_ok`).  `valueErrorZeroStep` is the Python `ValueError`
("slice step cannot be zero") raised by the step-2 slicing when a
subscale factor is 0.  `invalidSubscale` and `invalidRegion` are the
error kinds named by the spec (§7); no code path produces them. -/
inductive PyErr where
  | valueErrorZeroSize
  | valueErrorZeroStep
  | invalidSubscale
  | invalidRegion
  deriving DecidableEq

/-- Steps 1-4 of `regrid`, on already-located and normalized index
bounds, with the Python failure behavior made explicit in program order:

* the step-1 seeding `np.nditer` (`regrid.py` line 137) is constructed
  over the "plus one" source selection; on a zero-sized selection numpy
  raises `ValueError: Iteration of zero-sized operands is not enabled`;
* the step-2a slicing (line 178) uses slice steps `lon_subscale*2` and
  `lat_subscale*2`; a zero subscale factor makes a slice step 0, and
  Python raises `ValueError: slice step cannot be zero`;
* the step-2a/2b nditers (lines 177, 215) and the twelve step-4 field
  nditers (lines 339, 358, 393, 432, 471, 509, 544, 582, 621, 656, 691,
  727, transcribed in that order below; an axis selection shape that
  repeats an earlier one verbatim — DXV's, DYF's and RAW's row and DXF's
  column selections — is listed once) each raise the zero-sized-operands
  `ValueError` when their selection is zero-sized.  All these
  `ValueError`s produce the same observable failure, so the guards'
  relative order among themselves is immaterial; what matters (and is
  preserved) is that the seeding check precedes the zero-step check,
  which precedes all later iterator checks.

The loop effects themselves (`seedComputeGrid`, `fillX`, `fillY` and the
`out*` fields) are the pure folds; the iterator construction-time checks
live here as guards.  No subscale or region validation exists anywhere. -/
def regridCore (g : Geodesy) (kern : ℚ × ℚ → ℚ × ℚ → ℚ × ℚ → ℚ × ℚ → ℚ)
    (XG YG : Mat) (ilb jlb iub jub L S : ℕ) :
    Except PyErr (OutGrid × ℕ × ℕ) :=
  if sliceLen ((ilb : ℤ) - 1) ((iub : ℤ) + 2) 1 XG.rows = 0 ∨
      sliceLen ((jlb : ℤ) - 1) ((jub : ℤ) + 2) 1 XG.cols = 0 then
    .error .valueErrorZeroSize
  else if L = 0 ∨ S = 0 then .error .valueErrorZeroStep
  else if sliceLen 0 (-1) (L * 2) (cgRows ilb iub L) = 0 ∨
      sliceLen 0 (cgCols jlb jub S : ℤ) (S * 2) (cgCols jlb jub S) = 0 ∨
      sliceLen 0 (cgRows ilb iub L : ℤ) 1 (cgRows ilb iub L) = 0 ∨
      sliceLen 0 (-1) (S * 2) (cgCols jlb jub S) = 0 then
    .error .valueErrorZeroSize
  else
    let cg := computeGrid g XG YG ilb jlb iub jub L S
    let ca := computeAreas kern g.a cg
    let XGf := outXGf cg.1 ilb jlb iub jub L S
    if sliceLen 0 (-1) 1 XGf.rows = 0 ∨
        sliceLen 0 (XGf.cols : ℤ) 1 XGf.cols = 0 ∨
        sliceLen 0 (XGf.rows : ℤ) 1 XGf.rows = 0 ∨
        sliceLen 0 (-1) 1 XGf.cols = 0 ∨
        sliceLen ((L : ℤ) * 2)
          ((L : ℤ) * 2 + (((iub : ℤ) - ilb) * L - 1) * 2 + 1) 2 ca.rows = 0 ∨
        sliceLen ((S : ℤ) * 2)
          ((S : ℤ) * 2 + (((jub : ℤ) - jlb) * S - 1) * 2 + 1) 2 ca.cols = 0 ∨
        sliceLen ((L : ℤ) * 2 - 1)
          ((L : ℤ) * 2 - 1 + ((iub : ℤ) - ilb) * L * 2 + 1) 2 cg.1.rows = 0 ∨
        sliceLen ((S : ℤ) * 2 + 1)
          ((S : ℤ) * 2 + 1 + (((jub : ℤ) - jlb) * S - 1) * 2 + 1) 2
          cg.1.cols = 0 ∨
        sliceLen ((L : ℤ) * 2 + 1)
          ((L : ℤ) * 2 + 1 + (((iub : ℤ) - ilb) * L - 1) * 2 + 1) 2
          cg.1.rows = 0 ∨
        sliceLen ((S : ℤ) * 2 - 1)
          ((S : ℤ) * 2 - 1 + ((jub : ℤ) - jlb) * S * 2 + 1) 2 cg.1.cols = 0 ∨
        sliceLen ((L : ℤ) * 2 - 1)
          ((L : ℤ) * 2 - 1 + ((iub : ℤ) - ilb) * L * 2 + 1) 2 ca.rows = 0 ∨
        sliceLen ((S : ℤ) * 2 - 1)
          ((S : ℤ) * 2 - 1 + ((jub : ℤ) - jlb) * S * 2 + 1) 2 ca.cols = 0 ∨
        sliceLen ((S : ℤ) * 2)
          ((S : ℤ) * 2 + ((jub : ℤ) - jlb) * S * 2 + 1) 2 cg.1.cols = 0 ∨
        sliceLen ((S : ℤ) * 2)
          ((S : ℤ) * 2 + (((jub : ℤ) - jlb) * S - 1) * 2 + 1) 2
          cg.1.cols = 0 ∨
        sliceLen ((S : ℤ) * 2)
          ((S : ℤ) * 2 + (((jub : ℤ) - jlb) * S - 1) * 2 + 1) 2 ca.cols = 0 ∨
        sliceLen ((L : ℤ) * 2)
          ((L : ℤ) * 2 + (((iub : ℤ) - ilb) * L - 1) * 2 + 1) 2 cg.1.rows = 0 ∨
        sliceLen (2 * (L : ℤ))
          (2 * (L : ℤ) + ((iub : ℤ) - ilb) * 2 * L + 1) 2 cg.1.rows = 0 ∨
        sliceLen (2 * (S : ℤ) - 1)
          (2 * (S : ℤ) - 1 + ((jub : ℤ) - jlb) * 2 * S + 1) 2 cg.1.cols = 0 ∨
        sliceLen (2 * (L : ℤ))
          (2 * (L : ℤ) + (((iub : ℤ) - ilb) * L - 1) * 2 + 1) 2 ca.rows = 0 ∨
        sliceLen (2 * (S : ℤ) - 1)
          (2 * (S : ℤ) - 1 + ((jub : ℤ) - jlb) * S * 2 + 1) 2 ca.cols = 0 then
      .error .valueErrorZeroSize
    else
    .ok
      (⟨outXC cg.1 ilb jlb iub jub L S, outXC cg.2 ilb jlb iub jub L S,
        outXGf cg.1 ilb jlb iub jub L S, outXGf cg.2 ilb jlb iub jub L S,
        outDXG g cg.1 cg.2 ilb jlb iub jub L S,
        outDYG g cg.1 cg.2 ilb jlb iub jub L S,
        outRAC ca ilb jlb iub jub L S,
        outDXC g cg.1 cg.2 ilb jlb iub jub L S,
        outDYC g cg.1 cg.2 ilb jlb iub jub L S,
        outRAZ ca ilb jlb iub jub L S,
        outDXV g cg.1 cg.2 ilb jlb iub jub L S,
        outDYF g cg.1 cg.2 ilb jlb iub jub L S,
        outRAW ca ilb jlb iub jub L S,
        outDXF g cg.1 cg.2 ilb jlb iub jub L S,
        outDYU g cg.1 cg.2 ilb jlb iub jub L S,
        outRAS ca ilb jlb iub jub L S⟩,
       (iub - ilb) * L, (jub - jlb) * S)

/-- `regrid` (`regrid.py` lines 51-741), with file I/O elided: the
source grid arrays are taken directly.  Locates the two user corners
with `nearest`, normalizes the bounds by min/max, and assembles the
output grid; returns the output dictionary and the regridded cell
counts, or the first Python failure per the error model of
`regridCore`. -/
def regrid (g : Geodesy) (kern : ℚ × ℚ → ℚ × ℚ → ℚ × ℚ → ℚ × ℚ → ℚ)
    (XG YG : Mat) (lon1 lat1 lon2 lat2 : ℚ) (L S : ℕ) :
    Except PyErr (OutGrid × ℕ × ℕ) :=
  let n1 := nearest g lon1 lat1 XG YG
  let n2 := nearest g lon2 lat2 XG YG
  regridCore g kern XG YG (min n1.1 n2.1) (min n1.2.1 n2.2.1)
    (max n1.1 n2.1) (max n1.2.1 n2.2.1) L S

/-- The error of a result, if any. -/
def errOf {α : Type} (r : Except PyErr α) : Option PyErr :=
  match r with
  | .ok _ => none
  | .error e => some e

/-- The output grid of a successful result. -/
def getOut (r : Except PyErr (OutGrid × ℕ × ℕ)) : OutGrid :=
  match r with
  | .ok (o, _, _) => o
  | .error _ => default

/-- The regridded `ni` cell count of a successful result. -/
def resNi (r : Except PyErr (OutGrid × ℕ × ℕ)) : ℕ :=
  match r with
  | .ok (_, ni, _) => ni
  | .error _ => 0

/-- The regridded `nj` cell count of a successful result. -/
def resNj (r : Except PyErr (OutGrid × ℕ × ℕ)) : ℕ :=
  match r with
  | .ok (_, _, nj) => nj
  | .error _ => 0

/-! ### Basic lemmas about the iteration space and slice arithmetic -/

theorem mem_rowMajor {R C : ℕ} {r c : ℕ} :
    (r, c) ∈ rowMajor R C ↔ r < R ∧ c < C := by
  simp only [rowMajor, List.mem_flatMap, List.mem_map, List.mem_range]
  constructor
  · rintro ⟨a, ha, b, hb, h⟩
    cases h
    exact ⟨ha, hb⟩
  · rintro ⟨hr, hc⟩
    exact ⟨r, hr, c, hc, rfl⟩

theorem pyAdjust_of_nonneg {x : ℤ} {len : ℕ} (h0 : 0 ≤ x) (h1 : x ≤ len) :
    pyAdjust x len = x := by
  rw [pyAdjust, if_neg (not_lt.mpr h0)]
  exact min_eq_left h1

theorem sliceLen_eq_of_bounds {start stop : ℤ} {step len : ℕ}
    (h0 : 0 ≤ start) (h1 : start < stop) (h2 : stop ≤ len) :
    sliceLen start stop step len = (stop - start - 1).toNat / step + 1 := by
  rw [sliceLen, pyAdjust_of_nonneg h0 (le_trans (le_of_lt h1) h2),
    pyAdjust_of_nonneg (le_trans h0 (le_of_lt h1)) h2, if_pos h1]

theorem sliceLen_zero_of_ge {start stop : ℤ} {step len : ℕ}
    (h : pyAdjust stop len ≤ pyAdjust start len) :
    sliceLen start stop step len = 0 := by
  rw [sliceLen, if_neg (not_lt.mpr h)]

/-- Count of a stride-2 slice selecting `cnt` elements. -/
theorem sliceLen_count2 {f stop : ℤ} {len cnt : ℕ} (hf : 0 ≤ f)
    (hstop : stop = f + 2 * (cnt : ℤ) - 1) (hcnt : 1 ≤ cnt)
    (hlen : stop ≤ len) :
    sliceLen f stop 2 len = cnt := by
  subst hstop
  rw [sliceLen_eq_of_bounds hf (by omega) hlen]
  omega

/-- `sliceLen_count2` with the start and the count passed explicitly. -/
theorem sliceLen_count2e (f : ℤ) (cnt : ℕ) {stop : ℤ} {len : ℕ}
    (hf : 0 ≤ f) (hstop : stop = f + 2 * (cnt : ℤ) - 1) (hcnt : 1 ≤ cnt)
    (hlen : stop ≤ len) :
    sliceLen f stop 2 len = cnt :=
  sliceLen_count2 hf hstop hcnt hlen

/-- Count of the slice `[:-1:m]` on an axis of length `E*m + 1`. -/
theorem sliceLen_neg_one {E m : ℕ} (hE : 1 ≤ E) (hm : 1 ≤ m) :
    sliceLen 0 (-1) m (E * m + 1) = E := by
  have hEm : 1 ≤ E * m := Nat.one_le_iff_ne_zero.mpr (by positivity)
  rw [sliceLen, pyAdjust_of_nonneg le_rfl (by exact_mod_cast Nat.zero_le _),
    show pyAdjust (-1) (E * m + 1) = (E * m : ℤ) by
      rw [pyAdjust, if_pos (by norm_num)]; push_cast; omega,
    if_pos (by exact_mod_cast hEm)]
  have hsub : ((E * m : ℤ) - 0 - 1).toNat = E * m - 1 := by omega
  rw [hsub, show E * m - 1 = m * (E - 1) + (m - 1) by
      cases E with
      | zero => omega
      | succ e => rw [Nat.succ_sub_one, Nat.succ_mul, Nat.mul_comm e m]; omega,
    Nat.mul_add_div (by omega), Nat.div_eq_of_lt (by omega)]
  omega

/-- Count of the full strided slice `[::m]` on an axis of length `E*m + 1`. -/
theorem sliceLen_full {E m : ℕ} (hm : 1 ≤ m) :
    sliceLen 0 ((E * m + 1 : ℕ) : ℤ) m (E * m + 1) = E + 1 := by
  rw [sliceLen, pyAdjust_of_nonneg le_rfl (by exact_mod_cast Nat.zero_le _),
    pyAdjust_of_nonneg (by positivity) le_rfl,
    if_pos (by exact_mod_cast Nat.succ_pos _)]
  have hsub : (((E * m + 1 : ℕ) : ℤ) - 0 - 1).toNat = m * E := by
    push_cast; rw [Nat.mul_comm]; omega
  rw [hsub, Nat.mul_div_cancel_left E (by omega)]

/-- Count of the unit-stride full slice `[:]`. -/
theorem sliceLen_id (len : ℕ) : sliceLen 0 ((len : ℕ) : ℤ) 1 len = len := by
  cases len with
  | zero => rw [sliceLen]; norm_num [pyAdjust]
  | succ n =>
    rw [sliceLen, pyAdjust_of_nonneg le_rfl (by exact_mod_cast Nat.zero_le _),
      pyAdjust_of_nonneg (by positivity) le_rfl,
      if_pos (by exact_mod_cast Nat.succ_pos _)]
    omega

/-- Count of the Python slice `[:-1]` (unit stride). -/
theorem sliceLen_drop_last (len : ℕ) : sliceLen 0 (-1) 1 len = len - 1 := by
  cases len with
  | zero => decide
  | succ n =>
    rw [sliceLen,
      show pyAdjust 0 (n + 1) = 0 from by
        rw [pyAdjust, if_neg (by norm_num)]
        exact min_eq_left (by positivity),
      show pyAdjust (-1) (n + 1) = (n : ℤ) from by
        rw [pyAdjust, if_pos (by norm_num)]
        push_cast
        omega]
    rcases Nat.eq_zero_or_pos n with h | h
    · subst h; decide
    · rw [if_pos (by exact_mod_cast h)]
      omega

theorem pyAdjust_toNat {x : ℤ} {len v : ℕ} (h0 : 0 ≤ x) (h1 : x ≤ len)
    (hv : x = (v : ℤ)) : (pyAdjust x len).toNat = v := by
  rw [pyAdjust_of_nonneg h0 h1, hv]
  omega

/-! ### Disjointness arithmetic for the fill loops -/

/-- A multiple of `m` cannot lie strictly inside the open stride window
`(t*m, (t+1)*m)`. -/
theorem mult_not_in_strip {q t m : ℕ} (h1 : t * m + 1 ≤ q * m)
    (h2 : q * m < (t + 1) * m) : False := by
  have h3 : t < q := lt_of_mul_lt_mul_right (Nat.lt_of_succ_le h1) (Nat.zero_le m)
  have h4 : q < t + 1 := lt_of_mul_lt_mul_right h2 (Nat.zero_le m)
  omega

/-- The stride window containing `r*m + k` (with `1 ≤ k ≤ m-1`) is
unique. -/
theorem strip_row_unique {r t m k : ℕ} (hk1 : 1 ≤ k) (hk2 : k + 1 ≤ m)
    (h1 : t * m + 1 ≤ r * m + k) (h2 : r * m + k < (t + 1) * m) : t = r := by
  rcases Nat.lt_trichotomy t r with h | h | h
  · exfalso
    have h5 : (t + 1) * m ≤ r * m := Nat.mul_le_mul_right m h
    have h6 : r * m + k < r * m := lt_of_lt_of_le h2 h5
    exact absurd h6 (Nat.not_lt.mpr (Nat.le_add_right _ _))
  · exact h
  · exfalso
    have h5 : (r + 1) * m ≤ t * m := Nat.mul_le_mul_right m h
    have h6 : r * m + k < (r + 1) * m := by
      rw [Nat.succ_mul]; omega
    have h7 : t * m < r * m + k := Nat.lt_of_succ_le h1
    exact absurd (Nat.lt_of_lt_of_le h6 h5) (Nat.not_lt.mpr (Nat.le_of_lt h7))

/-! ### Generic fold characterizations -/

/-- A fold whose every step leaves position `(i, j)` of both matrices
unchanged leaves it unchanged overall. -/
theorem foldl_pair_preserve {α : Type} {step : Mat × Mat → α → Mat × Mat}
    {i j : ℕ} (l : List α) (st : Mat × Mat)
    (h : ∀ s q, q ∈ l → (step s q).1.data i j = s.1.data i j ∧
      (step s q).2.data i j = s.2.data i j) :
    (l.foldl step st).1.data i j = st.1.data i j ∧
    (l.foldl step st).2.data i j = st.2.data i j := by
  induction l generalizing st with
  | nil => exact ⟨rfl, rfl⟩
  | cons a t ih =>
    have ha := h st a (List.mem_cons_self a t)
    have ht := ih (step st a) fun s q hq => h s q (List.mem_cons_of_mem a hq)
    exact ⟨ht.1.trans ha.1, ht.2.trans ha.2⟩

/-- A fold whose every step preserves the shapes preserves them overall. -/
theorem foldl_pair_dims {α : Type} {step : Mat × Mat → α → Mat × Mat}
    (l : List α) (st : Mat × Mat)
    (h : ∀ s q, (step s q).1.rows = s.1.rows ∧ (step s q).1.cols = s.1.cols ∧
      (step s q).2.rows = s.2.rows ∧ (step s q).2.cols = s.2.cols) :
    (l.foldl step st).1.rows = st.1.rows ∧
    (l.foldl step st).1.cols = st.1.cols ∧
    (l.foldl step st).2.rows = st.2.rows ∧
    (l.foldl step st).2.cols = st.2.cols := by
  induction l generalizing st with
  | nil => exact ⟨rfl, rfl, rfl, rfl⟩
  | cons a t ih =>
    have ha := h st a
    have ht := ih (step st a)
    exact ⟨ht.1.trans ha.1, ht.2.1.trans ha.2.1, ht.2.2.1.trans ha.2.2.1,
      ht.2.2.2.trans ha.2.2.2⟩

/-- Characterization of the step-4 output loops: position `(i, j)` holds
`val i j` if the iteration visits it, else the allocated zero. -/
theorem fillOver_data (R C iR iC : ℕ) (val : ℕ → ℕ → ℚ) (i j : ℕ) :
    (fillOver R C iR iC val).data i j =
      if i < iR ∧ j < iC then val i j else 0 := by
  rw [fillOver]
  have key : ∀ (l : List (ℕ × ℕ)) (m : Mat),
      (l.foldl (fun acc rc => acc.set rc.1 rc.2 (val rc.1 rc.2)) m).data i j =
        if (i, j) ∈ l then val i j else m.data i j := by
    intro l
    induction l with
    | nil => intro m; simp
    | cons a t ih =>
      intro m
      rw [List.foldl_cons, ih]
      by_cases hmem : (i, j) ∈ t
      · rw [if_pos hmem, if_pos (List.mem_cons_of_mem a hmem)]
      · rw [if_neg hmem]
        by_cases heq : a = (i, j)
        · subst heq
          rw [if_pos (List.mem_cons_self _ t), Mat.set]
          simp
        · rw [if_neg fun h => by
            rcases List.mem_cons.mp h with h | h
            · exact heq h.symm
            · exact hmem h]
          rw [Mat.set]
          simp only
          rw [if_neg fun hc => heq (by cases a; simp_all)]
  rw [key]
  rcases Decidable.em ((i, j) ∈ rowMajor iR iC) with h | h
  · rw [if_pos h, if_pos (mem_rowMajor.mp h)]
  · rw [if_neg h, if_neg fun hc => h (mem_rowMajor.mpr hc), Mat.zeros]

/-! ### Seeding: reads at anchor positions -/

theorem seedStep_ne {XG YG : Mat} {aI aJ L S : ℕ} (hL : 1 ≤ L) (hS : 1 ≤ S)
    {st : Mat × Mat} {a : ℕ × ℕ} {r c : ℕ} (hne : a ≠ (r, c)) :
    (seedStep XG YG aI aJ L S st a).1.data (r * (L * 2)) (c * (S * 2)) =
      st.1.data (r * (L * 2)) (c * (S * 2)) ∧
    (seedStep XG YG aI aJ L S st a).2.data (r * (L * 2)) (c * (S * 2)) =
      st.2.data (r * (L * 2)) (c * (S * 2)) := by
  have hg : ¬(r * (L * 2) = a.1 * (L * 2) ∧ c * (S * 2) = a.2 * (S * 2)) := by
    rintro ⟨h1, h2⟩
    exact hne (Prod.ext
      (Nat.eq_of_mul_eq_mul_right (by omega) h1).symm
      (Nat.eq_of_mul_eq_mul_right (by omega) h2).symm)
  constructor <;>
    · simp only [seedStep, Mat.set]
      rw [if_neg hg]

theorem seed_foldl_read (XG YG : Mat) (aI aJ L S : ℕ) (hL : 1 ≤ L)
    (hS : 1 ≤ S) (r c : ℕ) (l : List (ℕ × ℕ)) (st : Mat × Mat) :
    ((l.foldl (seedStep XG YG aI aJ L S) st).1.data (r * (L * 2)) (c * (S * 2)) =
      if (r, c) ∈ l then XG.data (aI + r) (aJ + c)
      else st.1.data (r * (L * 2)) (c * (S * 2))) ∧
    ((l.foldl (seedStep XG YG aI aJ L S) st).2.data (r * (L * 2)) (c * (S * 2)) =
      if (r, c) ∈ l then YG.data (aI + r) (aJ + c)
      else st.2.data (r * (L * 2)) (c * (S * 2))) := by
  induction l generalizing st with
  | nil => simp
  | cons a t ih =>
    rw [List.foldl_cons]
    obtain ⟨ih1, ih2⟩ := ih (seedStep XG YG aI aJ L S st a)
    by_cases hmem : (r, c) ∈ t
    · rw [ih1, ih2, if_pos hmem, if_pos hmem,
        if_pos (List.mem_cons_of_mem a hmem), if_pos (List.mem_cons_of_mem a hmem)]
      exact ⟨rfl, rfl⟩
    · rw [ih1, ih2, if_neg hmem, if_neg hmem]
      by_cases heq : a = (r, c)
      · subst heq
        rw [if_pos (List.mem_cons_self _ t), if_pos (List.mem_cons_self _ t)]
        constructor <;>
          · dsimp only [seedStep, Mat.set]
            rw [if_pos ⟨rfl, rfl⟩]
      · obtain ⟨hp1, hp2⟩ := @seedStep_ne XG YG aI aJ L S hL hS st a r c heq
        have hnm : (r, c) ∉ a :: t := fun h => by
          rcases List.mem_cons.mp h with h | h
          · exact heq h.symm
          · exact hmem h
        rw [if_neg hnm, if_neg hnm]
        exact ⟨hp1, hp2⟩

/-! ### Axis-1 fill: step-level and fold-level characterization -/

theorem fillXStep_preserve_dvd_row {g : Geodesy} {L S : ℕ} {st : Mat × Mat}
    {a : ℕ × ℕ} {i j : ℕ} (hdvd : L * 2 ∣ i) :
    (fillXStep g L S st a).1.data i j = st.1.data i j ∧
    (fillXStep g L S st a).2.data i j = st.2.data i j := by
  obtain ⟨q, hq⟩ := hdvd
  have hg : ¬(j = a.2 * (S * 2) ∧ a.1 * (L * 2) + 1 ≤ i ∧
      i < (a.1 + 1) * (L * 2)) := by
    rintro ⟨-, h1, h2⟩
    rw [hq, Nat.mul_comm (L * 2) q] at h1 h2
    exact mult_not_in_strip h1 h2
  constructor <;>
    · simp only [fillXStep, Mat.setStripI]
      rw [if_neg hg]

theorem fillXStep_preserve_ne {g : Geodesy} {L S : ℕ} {st : Mat × Mat}
    {a : ℕ × ℕ} {r c k : ℕ} (hS : 1 ≤ S) (hk1 : 1 ≤ k) (hk2 : k + 1 ≤ L * 2)
    (hne : a ≠ (r, c)) :
    (fillXStep g L S st a).1.data (r * (L * 2) + k) (c * (S * 2)) =
      st.1.data (r * (L * 2) + k) (c * (S * 2)) ∧
    (fillXStep g L S st a).2.data (r * (L * 2) + k) (c * (S * 2)) =
      st.2.data (r * (L * 2) + k) (c * (S * 2)) := by
  have hg : ¬(c * (S * 2) = a.2 * (S * 2) ∧
      a.1 * (L * 2) + 1 ≤ r * (L * 2) + k ∧
      r * (L * 2) + k < (a.1 + 1) * (L * 2)) := by
    rintro ⟨h0, h1, h2⟩
    exact hne (Prod.ext
      (strip_row_unique hk1 hk2 h1 h2)
      (Nat.eq_of_mul_eq_mul_right (by omega) h0).symm)
  constructor <;>
    · simp only [fillXStep, Mat.setStripI]
      rw [if_neg hg]

theorem fillX_foldl_read (g : Geodesy) (L S : ℕ) (hL : 1 ≤ L) (hS : 1 ≤ S)
    (r c k : ℕ) (hk1 : 1 ≤ k) (hk2 : k + 1 ≤ L * 2)
    (l : List (ℕ × ℕ)) (st : Mat × Mat) :
    ((l.foldl (fillXStep g L S) st).1.data (r * (L * 2) + k) (c * (S * 2)) =
      if (r, c) ∈ l then
        (g.npts (st.1.data (r * (L * 2)) (c * (S * 2)))
          (st.2.data (r * (L * 2)) (c * (S * 2)))
          (st.1.data ((r + 1) * (L * 2)) (c * (S * 2)))
          (st.2.data ((r + 1) * (L * 2)) (c * (S * 2))) (L * 2 - 1) (k - 1)).1
      else st.1.data (r * (L * 2) + k) (c * (S * 2))) ∧
    ((l.foldl (fillXStep g L S) st).2.data (r * (L * 2) + k) (c * (S * 2)) =
      if (r, c) ∈ l then
        (g.npts (st.1.data (r * (L * 2)) (c * (S * 2)))
          (st.2.data (r * (L * 2)) (c * (S * 2)))
          (st.1.data ((r + 1) * (L * 2)) (c * (S * 2)))
          (st.2.data ((r + 1) * (L * 2)) (c * (S * 2))) (L * 2 - 1) (k - 1)).2
      else st.2.data (r * (L * 2) + k) (c * (S * 2))) := by
  induction l generalizing st with
  | nil => simp
  | cons a t ih =>
    rw [List.foldl_cons]
    obtain ⟨ih1, ih2⟩ := ih (fillXStep g L S st a)
    obtain ⟨ha1, ha2⟩ := @fillXStep_preserve_dvd_row g L S st a
      (r * (L * 2)) (c * (S * 2)) ⟨r, Nat.mul_comm r (L * 2)⟩
    obtain ⟨hb1, hb2⟩ := @fillXStep_preserve_dvd_row g L S st a
      ((r + 1) * (L * 2)) (c * (S * 2)) ⟨r + 1, Nat.mul_comm (r + 1) (L * 2)⟩
    by_cases hmem : (r, c) ∈ t
    · rw [ih1, ih2, if_pos hmem, if_pos hmem,
        if_pos (List.mem_cons_of_mem a hmem), if_pos (List.mem_cons_of_mem a hmem),
        ha1, ha2, hb1, hb2]
      exact ⟨rfl, rfl⟩
    · rw [ih1, ih2, if_neg hmem, if_neg hmem]
      by_cases heq : a = (r, c)
      · subst heq
        rw [if_pos (List.mem_cons_self _ t), if_pos (List.mem_cons_self _ t)]
        have hgt : c * (S * 2) = c * (S * 2) ∧
            r * (L * 2) + 1 ≤ r * (L * 2) + k ∧
            r * (L * 2) + k < (r + 1) * (L * 2) := by
          refine ⟨rfl, by omega, ?_⟩
          rw [Nat.succ_mul]
          omega
        have hidx : r * (L * 2) + k - (r * (L * 2) + 1) = k - 1 := by omega
        constructor <;>
          · dsimp only [fillXStep, Mat.setStripI]
            rw [if_pos hgt, hidx]
      · obtain ⟨hp1, hp2⟩ := @fillXStep_preserve_ne g L S st a r c k
          hS hk1 hk2 heq
        have hnm : (r, c) ∉ a :: t := fun h => by
          rcases List.mem_cons.mp h with h | h
          · exact heq h.symm
          · exact hmem h
        rw [if_neg hnm, if_neg hnm]
        exact ⟨hp1, hp2⟩

/-! ### Axis-2 fill: step-level and fold-level characterization -/

theorem fillYStep_preserve_dvd_col {g : Geodesy} {S : ℕ} {st : Mat × Mat}
    {a : ℕ × ℕ} {i j : ℕ} (hdvd : S * 2 ∣ j) :
    (fillYStep g S st a).1.data i j = st.1.data i j ∧
    (fillYStep g S st a).2.data i j = st.2.data i j := by
  obtain ⟨q, hq⟩ := hdvd
  have hg : ¬(i = a.1 ∧ a.2 * (S * 2) + 1 ≤ j ∧ j < (a.2 + 1) * (S * 2)) := by
    rintro ⟨-, h1, h2⟩
    rw [hq, Nat.mul_comm (S * 2) q] at h1 h2
    exact mult_not_in_strip h1 h2
  constructor <;>
    · simp only [fillYStep, Mat.setStripJ]
      rw [if_neg hg]

theorem fillYStep_preserve_ne {g : Geodesy} {S : ℕ} {st : Mat × Mat}
    {a : ℕ × ℕ} {i c k : ℕ} (hk1 : 1 ≤ k) (hk2 : k + 1 ≤ S * 2)
    (hne : a ≠ (i, c)) :
    (fillYStep g S st a).1.data i (c * (S * 2) + k) =
      st.1.data i (c * (S * 2) + k) ∧
    (fillYStep g S st a).2.data i (c * (S * 2) + k) =
      st.2.data i (c * (S * 2) + k) := by
  have hg : ¬(i = a.1 ∧ a.2 * (S * 2) + 1 ≤ c * (S * 2) + k ∧
      c * (S * 2) + k < (a.2 + 1) * (S * 2)) := by
    rintro ⟨h0, h1, h2⟩
    exact hne (Prod.ext h0.symm (strip_row_unique hk1 hk2 h1 h2))
  constructor <;>
    · simp only [fillYStep, Mat.setStripJ]
      rw [if_neg hg]

theorem fillY_foldl_read (g : Geodesy) (S : ℕ) (hS : 1 ≤ S)
    (i c k : ℕ) (hk1 : 1 ≤ k) (hk2 : k + 1 ≤ S * 2)
    (l : List (ℕ × ℕ)) (st : Mat × Mat) :
    ((l.foldl (fillYStep g S) st).1.data i (c * (S * 2) + k) =
      if (i, c) ∈ l then
        (g.npts (st.1.data i (c * (S * 2))) (st.2.data i (c * (S * 2)))
          (st.1.data i ((c + 1) * (S * 2))) (st.2.data i ((c + 1) * (S * 2)))
          (S * 2 - 1) (k - 1)).1
      else st.1.data i (c * (S * 2) + k)) ∧
    ((l.foldl (fillYStep g S) st).2.data i (c * (S * 2) + k) =
      if (i, c) ∈ l then
        (g.npts (st.1.data i (c * (S * 2))) (st.2.data i (c * (S * 2)))
          (st.1.data i ((c + 1) * (S * 2))) (st.2.data i ((c + 1) * (S * 2)))
          (S * 2 - 1) (k - 1)).2
      else st.2.data i (c * (S * 2) + k)) := by
  induction l generalizing st with
  | nil => simp
  | cons a t ih =>
    rw [List.foldl_cons]
    obtain ⟨ih1, ih2⟩ := ih (fillYStep g S st a)
    obtain ⟨ha1, ha2⟩ := @fillYStep_preserve_dvd_col g S st a i
      (c * (S * 2)) ⟨c, Nat.mul_comm c (S * 2)⟩
    obtain ⟨hb1, hb2⟩ := @fillYStep_preserve_dvd_col g S st a i
      ((c + 1) * (S * 2)) ⟨c + 1, Nat.mul_comm (c + 1) (S * 2)⟩
    by_cases hmem : (i, c) ∈ t
    · rw [ih1, ih2, if_pos hmem, if_pos hmem,
        if_pos (List.mem_cons_of_mem a hmem), if_pos (List.mem_cons_of_mem a hmem),
        ha1, ha2, hb1, hb2]
      exact ⟨rfl, rfl⟩
    · rw [ih1, ih2, if_neg hmem, if_neg hmem]
      by_cases heq : a = (i, c)
      · subst heq
        rw [if_pos (List.mem_cons_self _ t), if_pos (List.mem_cons_self _ t)]
        have hgt : i = i ∧ c * (S * 2) + 1 ≤ c * (S * 2) + k ∧
            c * (S * 2) + k < (c + 1) * (S * 2) := by
          refine ⟨rfl, by omega, ?_⟩
          rw [Nat.succ_mul]
          omega
        have hidx : c * (S * 2) + k - (c * (S * 2) + 1) = k - 1 := by omega
        constructor <;>
          · dsimp only [fillYStep, Mat.setStripJ]
            rw [if_pos hgt, hidx]
      · obtain ⟨hp1, hp2⟩ := @fillYStep_preserve_ne g S st a i c k
          hk1 hk2 heq
        have hnm : (i, c) ∉ a :: t := fun h => by
          rcases List.mem_cons.mp h with h | h
          · exact heq h.symm
          · exact hmem h
        rw [if_neg hnm, if_neg hnm]
        exact ⟨hp1, hp2⟩

/-! ### Stage-level corollaries -/

theorem seedComputeGrid_dims (XG YG : Mat) (ilb jlb iub jub L S : ℕ) :
    (seedComputeGrid XG YG ilb jlb iub jub L S).1.rows = cgRows ilb iub L ∧
    (seedComputeGrid XG YG ilb jlb iub jub L S).1.cols = cgCols jlb jub S ∧
    (seedComputeGrid XG YG ilb jlb iub jub L S).2.rows = cgRows ilb iub L ∧
    (seedComputeGrid XG YG ilb jlb iub jub L S).2.cols = cgCols jlb jub S := by
  simp only [seedComputeGrid]
  exact foldl_pair_dims _ _ fun s q => ⟨rfl, rfl, rfl, rfl⟩

theorem fillX_dims (g : Geodesy) (L S : ℕ) (st : Mat × Mat) :
    (fillX g L S st).1.rows = st.1.rows ∧ (fillX g L S st).1.cols = st.1.cols ∧
    (fillX g L S st).2.rows = st.2.rows ∧ (fillX g L S st).2.cols = st.2.cols := by
  simp only [fillX]
  exact foldl_pair_dims _ st fun s q => ⟨rfl, rfl, rfl, rfl⟩

theorem fillY_dims (g : Geodesy) (S : ℕ) (st : Mat × Mat) :
    (fillY g S st).1.rows = st.1.rows ∧ (fillY g S st).1.cols = st.1.cols ∧
    (fillY g S st).2.rows = st.2.rows ∧ (fillY g S st).2.cols = st.2.cols := by
  simp only [fillY]
  exact foldl_pair_dims _ st fun s q => ⟨rfl, rfl, rfl, rfl⟩

theorem computeGrid_dims (g : Geodesy) (XG YG : Mat)
    (ilb jlb iub jub L S : ℕ) :
    (computeGrid g XG YG ilb jlb iub jub L S).1.rows = cgRows ilb iub L ∧
    (computeGrid g XG YG ilb jlb iub jub L S).1.cols = cgCols jlb jub S ∧
    (computeGrid g XG YG ilb jlb iub jub L S).2.rows = cgRows ilb iub L ∧
    (computeGrid g XG YG ilb jlb iub jub L S).2.cols = cgCols jlb jub S := by
  rw [computeGrid]
  obtain ⟨hs1, hs2, hs3, hs4⟩ := seedComputeGrid_dims XG YG ilb jlb iub jub L S
  obtain ⟨hx1, hx2, hx3, hx4⟩ := fillX_dims g L S
    (seedComputeGrid XG YG ilb jlb iub jub L S)
  obtain ⟨hy1, hy2, hy3, hy4⟩ := fillY_dims g S
    (fillX g L S (seedComputeGrid XG YG ilb jlb iub jub L S))
  exact ⟨hy1.trans (hx1.trans hs1), hy2.trans (hx2.trans hs2),
    hy3.trans (hx3.trans hs3), hy4.trans (hx4.trans hs4)⟩

theorem fillX_preserve_dvd_row (g : Geodesy) (L S : ℕ) (st : Mat × Mat)
    (i j : ℕ) (hdvd : L * 2 ∣ i) :
    (fillX g L S st).1.data i j = st.1.data i j ∧
    (fillX g L S st).2.data i j = st.2.data i j := by
  simp only [fillX]
  exact foldl_pair_preserve _ st fun s q _ => fillXStep_preserve_dvd_row hdvd

theorem fillY_preserve_dvd_col (g : Geodesy) (S : ℕ) (st : Mat × Mat)
    (i j : ℕ) (hdvd : S * 2 ∣ j) :
    (fillY g S st).1.data i j = st.1.data i j ∧
    (fillY g S st).2.data i j = st.2.data i j := by
  simp only [fillY]
  exact foldl_pair_preserve _ st fun s q _ => fillYStep_preserve_dvd_col hdvd

theorem fillX_read (g : Geodesy) (L S : ℕ) (hL : 1 ≤ L) (hS : 1 ≤ S)
    (st : Mat × Mat) (r c k : ℕ) (hk1 : 1 ≤ k) (hk2 : k + 1 ≤ L * 2)
    (hr : r < sliceLen 0 (-1) (L * 2) st.1.rows)
    (hc : c < sliceLen 0 (st.1.cols : ℤ) (S * 2) st.1.cols) :
    (fillX g L S st).1.data (r * (L * 2) + k) (c * (S * 2)) =
      (g.npts (st.1.data (r * (L * 2)) (c * (S * 2)))
        (st.2.data (r * (L * 2)) (c * (S * 2)))
        (st.1.data ((r + 1) * (L * 2)) (c * (S * 2)))
        (st.2.data ((r + 1) * (L * 2)) (c * (S * 2))) (L * 2 - 1) (k - 1)).1 ∧
    (fillX g L S st).2.data (r * (L * 2) + k) (c * (S * 2)) =
      (g.npts (st.1.data (r * (L * 2)) (c * (S * 2)))
        (st.2.data (r * (L * 2)) (c * (S * 2)))
        (st.1.data ((r + 1) * (L * 2)) (c * (S * 2)))
        (st.2.data ((r + 1) * (L * 2)) (c * (S * 2))) (L * 2 - 1) (k - 1)).2 := by
  simp only [fillX]
  obtain ⟨h1, h2⟩ := fillX_foldl_read g L S hL hS r c k hk1 hk2
    (rowMajor (sliceLen 0 (-1) (L * 2) st.1.rows)
      (sliceLen 0 (st.1.cols : ℤ) (S * 2) st.1.cols)) st
  rw [h1, h2, if_pos (mem_rowMajor.mpr ⟨hr, hc⟩),
    if_pos (mem_rowMajor.mpr ⟨hr, hc⟩)]
  exact ⟨rfl, rfl⟩

theorem fillY_read (g : Geodesy) (S : ℕ) (hS : 1 ≤ S)
    (st : Mat × Mat) (i c k : ℕ) (hk1 : 1 ≤ k) (hk2 : k + 1 ≤ S * 2)
    (hi : i < sliceLen 0 (st.1.rows : ℤ) 1 st.1.rows)
    (hc : c < sliceLen 0 (-1) (S * 2) st.1.cols) :
    (fillY g S st).1.data i (c * (S * 2) + k) =
      (g.npts (st.1.data i (c * (S * 2))) (st.2.data i (c * (S * 2)))
        (st.1.data i ((c + 1) * (S * 2))) (st.2.data i ((c + 1) * (S * 2)))
        (S * 2 - 1) (k - 1)).1 ∧
    (fillY g S st).2.data i (c * (S * 2) + k) =
      (g.npts (st.1.data i (c * (S * 2))) (st.2.data i (c * (S * 2)))
        (st.1.data i ((c + 1) * (S * 2))) (st.2.data i ((c + 1) * (S * 2)))
        (S * 2 - 1) (k - 1)).2 := by
  simp only [fillY]
  obtain ⟨h1, h2⟩ := fillY_foldl_read g S hS i c k hk1 hk2
    (rowMajor (sliceLen 0 (st.1.rows : ℤ) 1 st.1.rows)
      (sliceLen 0 (-1) (S * 2) st.1.cols)) st
  rw [h1, h2, if_pos (mem_rowMajor.mpr ⟨hi, hc⟩),
    if_pos (mem_rowMajor.mpr ⟨hi, hc⟩)]
  exact ⟨rfl, rfl⟩

theorem seedComputeGrid_anchor (XG YG : Mat) (ilb jlb iub jub L S : ℕ)
    (hL : 1 ≤ L) (hS : 1 ≤ S) (hilb : 1 ≤ ilb) (hij : ilb ≤ iub)
    (hiub : iub + 2 ≤ XG.rows) (hjlb : 1 ≤ jlb) (hjj : jlb ≤ jub)
    (hjub : jub + 2 ≤ XG.cols) (r c : ℕ) (hr : r ≤ iub - ilb + 2)
    (hc : c ≤ jub - jlb + 2) :
    (seedComputeGrid XG YG ilb jlb iub jub L S).1.data
        (r * (L * 2)) (c * (S * 2)) = XG.data (ilb - 1 + r) (jlb - 1 + c) ∧
    (seedComputeGrid XG YG ilb jlb iub jub L S).2.data
        (r * (L * 2)) (c * (S * 2)) = YG.data (ilb - 1 + r) (jlb - 1 + c) := by
  have hsr : sliceLen ((ilb : ℤ) - 1) ((iub : ℤ) + 2) 1 XG.rows
      = iub - ilb + 3 := by
    rw [sliceLen_eq_of_bounds (by omega) (by omega) (by exact_mod_cast hiub)]
    omega
  have hsc : sliceLen ((jlb : ℤ) - 1) ((jub : ℤ) + 2) 1 XG.cols
      = jub - jlb + 3 := by
    rw [sliceLen_eq_of_bounds (by omega) (by omega) (by exact_mod_cast hjub)]
    omega
  have haI : (pyAdjust ((ilb : ℤ) - 1) XG.rows).toNat = ilb - 1 := by
    rw [pyAdjust_of_nonneg (by omega) (by omega)]
    omega
  have haJ : (pyAdjust ((jlb : ℤ) - 1) XG.cols).toNat = jlb - 1 := by
    rw [pyAdjust_of_nonneg (by omega) (by omega)]
    omega
  simp only [seedComputeGrid]
  obtain ⟨h1, h2⟩ := seed_foldl_read XG YG
    ((pyAdjust ((ilb : ℤ) - 1) XG.rows).toNat)
    ((pyAdjust ((jlb : ℤ) - 1) XG.cols).toNat) L S hL hS r c
    (rowMajor (sliceLen ((ilb : ℤ) - 1) ((iub : ℤ) + 2) 1 XG.rows)
      (sliceLen ((jlb : ℤ) - 1) ((jub : ℤ) + 2) 1 XG.cols))
    (Mat.zeros (cgRows ilb iub L) (cgCols jlb jub S),
     Mat.zeros (cgRows ilb iub L) (cgCols jlb jub S))
  have hmem : (r, c) ∈ rowMajor
      (sliceLen ((ilb : ℤ) - 1) ((iub : ℤ) + 2) 1 XG.rows)
      (sliceLen ((jlb : ℤ) - 1) ((jub : ℤ) + 2) 1 XG.cols) := by
    rw [mem_rowMajor, hsr, hsc]
    omega
  rw [h1, h2, if_pos hmem, if_pos hmem, haI, haJ]
  exact ⟨rfl, rfl⟩

/-! ### Concrete instances used for witnesses and counterexamples -/

/-- The rational with numerator `n` and denominator 1, built directly as
a structure literal (kernel-reducible, unlike the cast). -/
def natQ (n : ℕ) : ℚ := ⟨n, 1, one_ne_zero, Nat.coprime_one_right _⟩

/-- The rational with integer numerator `z` and denominator 1. -/
def intQ (z : ℤ) : ℚ := ⟨z, 1, one_ne_zero, Nat.coprime_one_right _⟩

/-- A concrete, computable geodesy for witnesses: squared plane distance
on the integer parts for the inverse problem, and an integer-valued
function of the endpoints for intermediate points. -/
def flatGeod : Geodesy where
  inv := fun lon1 lat1 lon2 lat2 =>
    (0, 0, intQ ((lon2.num - lon1.num) * (lon2.num - lon1.num)
      + (lat2.num - lat1.num) * (lat2.num - lat1.num)))
  npts := fun lon1 lat1 lon2 lat2 n k =>
    (intQ (lon1.num + lon2.num + k + n), intQ (lat1.num + lat2.num + k))
  a := natQ 1

/-- A concrete elemental-area kernel. -/
def kern1 : ℚ × ℚ → ℚ × ℚ → ℚ × ℚ → ℚ × ℚ → ℚ := fun _ _ _ _ => natQ 1

/-- A concrete 4x4-cell source grid: corner longitudes equal the first
index. -/
def gX5 : Mat := ⟨5, 5, fun i _ => natQ i⟩

/-- Corner latitudes equal the second index. -/
def gY5 : Mat := ⟨5, 5, fun _ j => natQ j⟩

/-! ### Claim theorems -/

/-- C8: for every valid input, the two compute-grid coordinate arrays are
dimensioned exactly `((iub-ilb+2)*lon_subscale*2+1)` by
`((jub-jlb+2)*lat_subscale*2+1)`: the selected region plus a one-cell
halo on each side, refined by `subscale*2` along each axis. -/
theorem spec2_c8_compute_grid_dims (g : Geodesy) (XG YG : Mat)
    (ilb jlb iub jub L S : ℕ) (hi : ilb ≤ iub) (hj : jlb ≤ jub) :
    (computeGrid g XG YG ilb jlb iub jub L S).1.rows
        = (iub - ilb + 2) * L * 2 + 1 ∧
    (computeGrid g XG YG ilb jlb iub jub L S).1.cols
        = (jub - jlb + 2) * S * 2 + 1 ∧
    (computeGrid g XG YG ilb jlb iub jub L S).2.rows
        = (iub - ilb + 2) * L * 2 + 1 ∧
    (computeGrid g XG YG ilb jlb iub jub L S).2.cols
        = (jub - jlb + 2) * S * 2 + 1 := by
  obtain ⟨h1, h2, h3, h4⟩ := computeGrid_dims g XG YG ilb jlb iub jub L S
  have hr : cgRows ilb iub L = (iub - ilb + 2) * L * 2 + 1 := by
    rw [cgRows, show ((iub : ℤ) + 1 - ((ilb : ℤ) - 1)).toNat = iub - ilb + 2
      from by omega, Nat.mul_assoc]
  have hc : cgCols jlb jub S = (jub - jlb + 2) * S * 2 + 1 := by
    rw [cgCols, show ((jub : ℤ) + 1 - ((jlb : ℤ) - 1)).toNat = jub - jlb + 2
      from by omega, Nat.mul_assoc]
  exact ⟨h1.trans hr, h2.trans hc, h3.trans hr, h4.trans hc⟩

theorem spec2_c8_compute_grid_dims_witness :
    1 ≤ (2 : ℕ) ∧
    (computeGrid flatGeod gX5 gY5 1 1 2 2 1 1).1.rows = (2 - 1 + 2) * 1 * 2 + 1 :=
  ⟨by decide,
   (spec2_c8_compute_grid_dims flatGeod gX5 gY5 1 1 2 2 1 1
     (by decide) (by decide)).1⟩

/-- C2: every compute-grid position whose index pair is an exact multiple
of `(lon_subscale*2, lat_subscale*2)` holds the corresponding original
source-grid corner point copied verbatim, both right after seeding and
after both fill passes complete: the axis-1 and the axis-2 fill steps
write only to intervening indices and never overwrite a seeded anchor. -/
theorem spec2_c2_anchor_invariant (g : Geodesy) (XG YG : Mat)
    (ilb jlb iub jub L S r c : ℕ) (hL : 1 ≤ L) (hS : 1 ≤ S)
    (hilb : 1 ≤ ilb) (hij : ilb ≤ iub) (hiub : iub + 2 ≤ XG.rows)
    (hjlb : 1 ≤ jlb) (hjj : jlb ≤ jub) (hjub : jub + 2 ≤ XG.cols)
    (hr : r ≤ iub - ilb + 2) (hc : c ≤ jub - jlb + 2) :
    ((computeGrid g XG YG ilb jlb iub jub L S).1.data
        (r * (L * 2)) (c * (S * 2)) = XG.data (ilb - 1 + r) (jlb - 1 + c) ∧
     (computeGrid g XG YG ilb jlb iub jub L S).2.data
        (r * (L * 2)) (c * (S * 2)) = YG.data (ilb - 1 + r) (jlb - 1 + c)) ∧
    ((fillX g L S (seedComputeGrid XG YG ilb jlb iub jub L S)).1.data
        (r * (L * 2)) (c * (S * 2)) =
      (seedComputeGrid XG YG ilb jlb iub jub L S).1.data
        (r * (L * 2)) (c * (S * 2)) ∧
     (fillX g L S (seedComputeGrid XG YG ilb jlb iub jub L S)).2.data
        (r * (L * 2)) (c * (S * 2)) =
      (seedComputeGrid XG YG ilb jlb iub jub L S).2.data
        (r * (L * 2)) (c * (S * 2))) ∧
    ((computeGrid g XG YG ilb jlb iub jub L S).1.data
        (r * (L * 2)) (c * (S * 2)) =
      (fillX g L S (seedComputeGrid XG YG ilb jlb iub jub L S)).1.data
        (r * (L * 2)) (c * (S * 2)) ∧
     (computeGrid g XG YG ilb jlb iub jub L S).2.data
        (r * (L * 2)) (c * (S * 2)) =
      (fillX g L S (seedComputeGrid XG YG ilb jlb iub jub L S)).2.data
        (r * (L * 2)) (c * (S * 2))) := by
  have hdvdI : L * 2 ∣ r * (L * 2) := ⟨r, Nat.mul_comm r (L * 2)⟩
  have hdvdJ : S * 2 ∣ c * (S * 2) := ⟨c, Nat.mul_comm c (S * 2)⟩
  obtain ⟨hseed1, hseed2⟩ := seedComputeGrid_anchor XG YG ilb jlb iub jub L S
    hL hS hilb hij hiub hjlb hjj hjub r c hr hc
  obtain ⟨hx1, hx2⟩ := fillX_preserve_dvd_row g L S
    (seedComputeGrid XG YG ilb jlb iub jub L S)
    (r * (L * 2)) (c * (S * 2)) hdvdI
  obtain ⟨hy1, hy2⟩ := fillY_preserve_dvd_col g S
    (fillX g L S (seedComputeGrid XG YG ilb jlb iub jub L S))
    (r * (L * 2)) (c * (S * 2)) hdvdJ
  rw [computeGrid]
  exact ⟨⟨hy1.trans (hx1.trans hseed1), hy2.trans (hx2.trans hseed2)⟩,
    ⟨hx1, hx2⟩, ⟨hy1, hy2⟩⟩

theorem spec2_c2_anchor_invariant_witness :
    1 ≤ (1 : ℕ) ∧
    (computeGrid flatGeod gX5 gY5 1 1 2 2 1 1).1.data (1 * (1 * 2))
      (1 * (1 * 2)) = gX5.data (1 - 1 + 1) (1 - 1 + 1) :=
  ⟨by decide,
   ((spec2_c2_anchor_invariant flatGeod gX5 gY5 1 1 2 2 1 1 1 1
     (by decide) (by decide) (by decide) (by decide) (by decide) (by decide)
     (by decide) (by decide) (by decide) (by decide)).1).1⟩

/-- C4: the compute-grid fill proceeds in two passes in a fixed order.
First the axis-1 fill: for every pair of seeded points adjacent along
axis 1 (spaced `lon_subscale*2` apart, at an axis-2 coordinate that is a
multiple of `lat_subscale*2`), exactly `lon_subscale*2-1` equally spaced
geodesic intermediate points are stored at the intervening indices.
Then the axis-2 fill: for every pair of now-populated points spaced
`lat_subscale*2` apart in every column, exactly `lat_subscale*2-1`
intermediate points are stored at the intervening indices, and the
endpoints are read from the state produced by the axis-1 pass. -/
theorem spec2_c4_two_pass_fill (g : Geodesy) (XG YG : Mat)
    (ilb jlb iub jub L S : ℕ) (hL : 1 ≤ L) (hS : 1 ≤ S)
    (hi : ilb ≤ iub) (hj : jlb ≤ jub) :
    computeGrid g XG YG ilb jlb iub jub L S =
      fillY g S (fillX g L S (seedComputeGrid XG YG ilb jlb iub jub L S)) ∧
    (∀ r c k, r < iub - ilb + 2 → c < jub - jlb + 3 → 1 ≤ k → k ≤ L * 2 - 1 →
      (computeGrid g XG YG ilb jlb iub jub L S).1.data
          (r * (L * 2) + k) (c * (S * 2)) =
        (g.npts
          ((seedComputeGrid XG YG ilb jlb iub jub L S).1.data
            (r * (L * 2)) (c * (S * 2)))
          ((seedComputeGrid XG YG ilb jlb iub jub L S).2.data
            (r * (L * 2)) (c * (S * 2)))
          ((seedComputeGrid XG YG ilb jlb iub jub L S).1.data
            ((r + 1) * (L * 2)) (c * (S * 2)))
          ((seedComputeGrid XG YG ilb jlb iub jub L S).2.data
            ((r + 1) * (L * 2)) (c * (S * 2)))
          (L * 2 - 1) (k - 1)).1 ∧
      (computeGrid g XG YG ilb jlb iub jub L S).2.data
          (r * (L * 2) + k) (c * (S * 2)) =
        (g.npts
          ((seedComputeGrid XG YG ilb jlb iub jub L S).1.data
            (r * (L * 2)) (c * (S * 2)))
          ((seedComputeGrid XG YG ilb jlb iub jub L S).2.data
            (r * (L * 2)) (c * (S * 2)))
          ((seedComputeGrid XG YG ilb jlb iub jub L S).1.data
            ((r + 1) * (L * 2)) (c * (S * 2)))
          ((seedComputeGrid XG YG ilb jlb iub jub L S).2.data
            ((r + 1) * (L * 2)) (c * (S * 2)))
          (L * 2 - 1) (k - 1)).2) ∧
    (∀ i c k, i < (iub - ilb + 2) * (L * 2) + 1 → c < jub - jlb + 2 →
        1 ≤ k → k ≤ S * 2 - 1 →
      (computeGrid g XG YG ilb jlb iub jub L S).1.data
          i (c * (S * 2) + k) =
        (g.npts
          ((fillX g L S (seedComputeGrid XG YG ilb jlb iub jub L S)).1.data
            i (c * (S * 2)))
          ((fillX g L S (seedComputeGrid XG YG ilb jlb iub jub L S)).2.data
            i (c * (S * 2)))
          ((fillX g L S (seedComputeGrid XG YG ilb jlb iub jub L S)).1.data
            i ((c + 1) * (S * 2)))
          ((fillX g L S (seedComputeGrid XG YG ilb jlb iub jub L S)).2.data
            i ((c + 1) * (S * 2)))
          (S * 2 - 1) (k - 1)).1 ∧
      (computeGrid g XG YG ilb jlb iub jub L S).2.data
          i (c * (S * 2) + k) =
        (g.npts
          ((fillX g L S (seedComputeGrid XG YG ilb jlb iub jub L S)).1.data
            i (c * (S * 2)))
          ((fillX g L S (seedComputeGrid XG YG ilb jlb iub jub L S)).2.data
            i (c * (S * 2)))
          ((fillX g L S (seedComputeGrid XG YG ilb jlb iub jub L S)).1.data
            i ((c + 1) * (S * 2)))
          ((fillX g L S (seedComputeGrid XG YG ilb jlb iub jub L S)).2.data
            i ((c + 1) * (S * 2)))
          (S * 2 - 1) (k - 1)).2) := by
  have hrows : (seedComputeGrid XG YG ilb jlb iub jub L S).1.rows
      = (iub - ilb + 2) * (L * 2) + 1 := by
    rw [(seedComputeGrid_dims XG YG ilb jlb iub jub L S).1, cgRows,
      show ((iub : ℤ) + 1 - ((ilb : ℤ) - 1)).toNat = iub - ilb + 2 from by omega]
  have hcols : (seedComputeGrid XG YG ilb jlb iub jub L S).1.cols
      = (jub - jlb + 2) * (S * 2) + 1 := by
    rw [(seedComputeGrid_dims XG YG ilb jlb iub jub L S).2.1, cgCols,
      show ((jub : ℤ) + 1 - ((jlb : ℤ) - 1)).toNat = jub - jlb + 2 from by omega]
  refine ⟨rfl, ?_, ?_⟩
  · intro r c k hr hc hk1 hk2
    have hr' : r < sliceLen 0 (-1) (L * 2)
        (seedComputeGrid XG YG ilb jlb iub jub L S).1.rows := by
      rw [hrows, sliceLen_neg_one (by omega) (by omega)]
      exact hr
    have hc' : c < sliceLen 0
        ((seedComputeGrid XG YG ilb jlb iub jub L S).1.cols : ℤ) (S * 2)
        (seedComputeGrid XG YG ilb jlb iub jub L S).1.cols := by
      rw [hcols, sliceLen_full (by omega)]
      omega
    obtain ⟨hx1, hx2⟩ := fillX_read g L S hL hS
      (seedComputeGrid XG YG ilb jlb iub jub L S) r c k hk1 (by omega) hr' hc'
    obtain ⟨hy1, hy2⟩ := fillY_preserve_dvd_col g S
      (fillX g L S (seedComputeGrid XG YG ilb jlb iub jub L S))
      (r * (L * 2) + k) (c * (S * 2)) ⟨c, Nat.mul_comm c (S * 2)⟩
    rw [computeGrid]
    exact ⟨hy1.trans hx1, hy2.trans hx2⟩
  · intro i c k hi' hc hk1 hk2
    have hrowsG1 : (fillX g L S (seedComputeGrid XG YG ilb jlb iub jub L S)).1.rows
        = (iub - ilb + 2) * (L * 2) + 1 :=
      ((fillX_dims g L S (seedComputeGrid XG YG ilb jlb iub jub L S)).1).trans hrows
    have hcolsG1 : (fillX g L S (seedComputeGrid XG YG ilb jlb iub jub L S)).1.cols
        = (jub - jlb + 2) * (S * 2) + 1 :=
      ((fillX_dims g L S (seedComputeGrid XG YG ilb jlb iub jub L S)).2.1).trans hcols
    have hi'' : i < sliceLen 0
        ((fillX g L S (seedComputeGrid XG YG ilb jlb iub jub L S)).1.rows : ℤ) 1
        (fillX g L S (seedComputeGrid XG YG ilb jlb iub jub L S)).1.rows := by
      rw [hrowsG1, sliceLen_id]
      exact hi'
    have hc'' : c < sliceLen 0 (-1) (S * 2)
        (fillX g L S (seedComputeGrid XG YG ilb jlb iub jub L S)).1.cols := by
      rw [hcolsG1, sliceLen_neg_one (by omega) (by omega)]
      exact hc
    obtain ⟨h1, h2⟩ := fillY_read g S hS
      (fillX g L S (seedComputeGrid XG YG ilb jlb iub jub L S)) i c k hk1
      (by omega) hi'' hc''
    rw [computeGrid]
    exact ⟨h1, h2⟩

theorem spec2_c4_two_pass_fill_witness :
    1 ≤ (1 : ℕ) ∧
    (computeGrid flatGeod gX5 gY5 1 1 2 2 1 1).1.data
        (0 * (1 * 2) + 1) (0 * (1 * 2)) =
      (flatGeod.npts
        ((seedComputeGrid gX5 gY5 1 1 2 2 1 1).1.data (0 * (1 * 2)) (0 * (1 * 2)))
        ((seedComputeGrid gX5 gY5 1 1 2 2 1 1).2.data (0 * (1 * 2)) (0 * (1 * 2)))
        ((seedComputeGrid gX5 gY5 1 1 2 2 1 1).1.data
          ((0 + 1) * (1 * 2)) (0 * (1 * 2)))
        ((seedComputeGrid gX5 gY5 1 1 2 2 1 1).2.data
          ((0 + 1) * (1 * 2)) (0 * (1 * 2)))
        (1 * 2 - 1) (1 - 1)).1 :=
  ⟨by decide,
   ((spec2_c4_two_pass_fill flatGeod gX5 gY5 1 1 2 2 1 1 (by decide) (by decide)
     (by decide) (by decide)).2.1 0 0 1 (by decide) (by decide) (by decide)
     (by decide)).1⟩

theorem foldl_mat_dims {α : Type} {step : Mat → α → Mat} (l : List α)
    (m : Mat) (h : ∀ s q, (step s q).rows = s.rows ∧ (step s q).cols = s.cols) :
    (l.foldl step m).rows = m.rows ∧ (l.foldl step m).cols = m.cols := by
  induction l generalizing m with
  | nil => exact ⟨rfl, rfl⟩
  | cons a t ih =>
    have ha := h m a
    have ht := ih (step m a)
    exact ⟨ht.1.trans ha.1, ht.2.trans ha.2⟩

theorem fillOver_dims (R C iR iC : ℕ) (val : ℕ → ℕ → ℚ) :
    (fillOver R C iR iC val).rows = R ∧ (fillOver R C iR iC val).cols = C := by
  rw [fillOver]
  exact foldl_mat_dims _ _ fun s q => ⟨rfl, rfl⟩

/-- The step-2a/2b nditer selection shapes, evaluated: with subscales at
least 1 and ordered bounds, neither fill iterator is zero-sized. -/
theorem fillIterShapes (ilb jlb iub jub L S : ℕ) (hL : 1 ≤ L) (hS : 1 ≤ S)
    (hij : ilb ≤ iub) (hjj : jlb ≤ jub) :
    sliceLen 0 (-1) (L * 2) (cgRows ilb iub L) = iub - ilb + 2 ∧
    sliceLen 0 (cgCols jlb jub S : ℤ) (S * 2) (cgCols jlb jub S)
      = jub - jlb + 3 ∧
    sliceLen 0 (cgRows ilb iub L : ℤ) 1 (cgRows ilb iub L)
      = (iub - ilb + 2) * (L * 2) + 1 ∧
    sliceLen 0 (-1) (S * 2) (cgCols jlb jub S) = jub - jlb + 2 := by
  have hr : cgRows ilb iub L = (iub - ilb + 2) * (L * 2) + 1 := by
    rw [cgRows,
      show ((iub : ℤ) + 1 - ((ilb : ℤ) - 1)).toNat = iub - ilb + 2 from by omega]
  have hc : cgCols jlb jub S = (jub - jlb + 2) * (S * 2) + 1 := by
    rw [cgCols,
      show ((jub : ℤ) + 1 - ((jlb : ℤ) - 1)).toNat = jub - jlb + 2 from by omega]
  refine ⟨?_, ?_, ?_, ?_⟩
  · rw [hr]
    exact sliceLen_neg_one (by omega) (by omega)
  · rw [hc, sliceLen_full (by omega)]
  · rw [hr, sliceLen_id]
  · rw [hc]
    exact sliceLen_neg_one (by omega) (by omega)

/-- The DXG/DYG nditer selection shapes over `outgrid[XG]`, evaluated. -/
theorem xgfShapes (g : Geodesy) (XG YG : Mat) (ilb jlb iub jub L S : ℕ)
    (hL : 1 ≤ L) (hS : 1 ≤ S) (hij : ilb ≤ iub) (hjj : jlb ≤ jub) :
    sliceLen 0 (-1) 1 (outXGf (computeGrid g XG YG ilb jlb iub jub L S).1
      ilb jlb iub jub L S).rows = (iub - ilb) * L ∧
    sliceLen 0 ((outXGf (computeGrid g XG YG ilb jlb iub jub L S).1
        ilb jlb iub jub L S).cols : ℤ) 1
      (outXGf (computeGrid g XG YG ilb jlb iub jub L S).1
        ilb jlb iub jub L S).cols = (jub - jlb) * S + 1 ∧
    sliceLen 0 ((outXGf (computeGrid g XG YG ilb jlb iub jub L S).1
        ilb jlb iub jub L S).rows : ℤ) 1
      (outXGf (computeGrid g XG YG ilb jlb iub jub L S).1
        ilb jlb iub jub L S).rows = (iub - ilb) * L + 1 ∧
    sliceLen 0 (-1) 1 (outXGf (computeGrid g XG YG ilb jlb iub jub L S).1
      ilb jlb iub jub L S).cols = (jub - jlb) * S := by
  have hrows1 : (computeGrid g XG YG ilb jlb iub jub L S).1.rows
      = (iub - ilb + 2) * (L * 2) + 1 := by
    rw [(computeGrid_dims g XG YG ilb jlb iub jub L S).1, cgRows,
      show ((iub : ℤ) + 1 - ((ilb : ℤ) - 1)).toNat = iub - ilb + 2 from by omega]
  have hcols1 : (computeGrid g XG YG ilb jlb iub jub L S).1.cols
      = (jub - jlb + 2) * (S * 2) + 1 := by
    rw [(computeGrid_dims g XG YG ilb jlb iub jub L S).2.1, cgCols,
      show ((jub : ℤ) + 1 - ((jlb : ℤ) - 1)).toNat = jub - jlb + 2 from by omega]
  have e1i : ((iub : ℤ) - ilb) * L = (((iub - ilb) * L : ℕ) : ℤ) := by
    rw [Nat.cast_mul, Nat.cast_sub hij]
  have e1j : ((jub : ℤ) - jlb) * S = (((jub - jlb) * S : ℕ) : ℤ) := by
    rw [Nat.cast_mul, Nat.cast_sub hjj]
  have e2i : (iub - ilb + 2) * (L * 2) = (iub - ilb) * L * 2 + L * 4 := by ring
  have e2j : (jub - jlb + 2) * (S * 2) = (jub - jlb) * S * 2 + S * 4 := by ring
  have hXGr : (outXGf (computeGrid g XG YG ilb jlb iub jub L S).1
      ilb jlb iub jub L S).rows = (iub - ilb) * L + 1 := by
    simp only [outXGf, sliceMat]
    rw [hrows1]
    exact sliceLen_count2 (by omega) (by omega) (by omega) (by omega)
  have hXGc : (outXGf (computeGrid g XG YG ilb jlb iub jub L S).1
      ilb jlb iub jub L S).cols = (jub - jlb) * S + 1 := by
    simp only [outXGf, sliceMat]
    rw [hcols1]
    exact sliceLen_count2 (by omega) (by omega) (by omega) (by omega)
  refine ⟨?_, ?_, ?_, ?_⟩
  · rw [hXGr, sliceLen_drop_last]
    omega
  · rw [hXGc, sliceLen_id]
  · rw [hXGr, sliceLen_id]
  · rw [hXGc, sliceLen_drop_last]
    omega

/-- The remaining step-4 nditer selection shapes (over the compute grid
and the compute areas), evaluated under nondegenerate bounds: none is
zero-sized. -/
theorem stepFourShapes (g : Geodesy)
    (kern : ℚ × ℚ → ℚ × ℚ → ℚ × ℚ → ℚ × ℚ → ℚ) (XG YG : Mat)
    (ilb jlb iub jub L S : ℕ) (hL : 1 ≤ L) (hS : 1 ≤ S)
    (hi : ilb < iub) (hj : jlb < jub) :
    sliceLen ((L : ℤ) * 2)
      ((L : ℤ) * 2 + (((iub : ℤ) - ilb) * L - 1) * 2 + 1) 2
      (computeAreas kern g.a (computeGrid g XG YG ilb jlb iub jub L S)).rows
      = (iub - ilb) * L ∧
    sliceLen ((S : ℤ) * 2)
      ((S : ℤ) * 2 + (((jub : ℤ) - jlb) * S - 1) * 2 + 1) 2
      (computeAreas kern g.a (computeGrid g XG YG ilb jlb iub jub L S)).cols
      = (jub - jlb) * S ∧
    sliceLen ((L : ℤ) * 2 - 1)
      ((L : ℤ) * 2 - 1 + ((iub : ℤ) - ilb) * L * 2 + 1) 2
      (computeGrid g XG YG ilb jlb iub jub L S).1.rows
      = (iub - ilb) * L + 1 ∧
    sliceLen ((S : ℤ) * 2 + 1)
      ((S : ℤ) * 2 + 1 + (((jub : ℤ) - jlb) * S - 1) * 2 + 1) 2
      (computeGrid g XG YG ilb jlb iub jub L S).1.cols
      = (jub - jlb) * S ∧
    sliceLen ((L : ℤ) * 2 + 1)
      ((L : ℤ) * 2 + 1 + (((iub : ℤ) - ilb) * L - 1) * 2 + 1) 2
      (computeGrid g XG YG ilb jlb iub jub L S).1.rows
      = (iub - ilb) * L ∧
    sliceLen ((S : ℤ) * 2 - 1)
      ((S : ℤ) * 2 - 1 + ((jub : ℤ) - jlb) * S * 2 + 1) 2
      (computeGrid g XG YG ilb jlb iub jub L S).1.cols
      = (jub - jlb) * S + 1 ∧
    sliceLen ((L : ℤ) * 2 - 1)
      ((L : ℤ) * 2 - 1 + ((iub : ℤ) - ilb) * L * 2 + 1) 2
      (computeAreas kern g.a (computeGrid g XG YG ilb jlb iub jub L S)).rows
      = (iub - ilb) * L + 1 ∧
    sliceLen ((S : ℤ) * 2 - 1)
      ((S : ℤ) * 2 - 1 + ((jub : ℤ) - jlb) * S * 2 + 1) 2
      (computeAreas kern g.a (computeGrid g XG YG ilb jlb iub jub L S)).cols
      = (jub - jlb) * S + 1 ∧
    sliceLen ((S : ℤ) * 2)
      ((S : ℤ) * 2 + ((jub : ℤ) - jlb) * S * 2 + 1) 2
      (computeGrid g XG YG ilb jlb iub jub L S).1.cols
      = (jub - jlb) * S + 1 ∧
    sliceLen ((S : ℤ) * 2)
      ((S : ℤ) * 2 + (((jub : ℤ) - jlb) * S - 1) * 2 + 1) 2
      (computeGrid g XG YG ilb jlb iub jub L S).1.cols
      = (jub - jlb) * S ∧
    sliceLen ((S : ℤ) * 2)
      ((S : ℤ) * 2 + (((jub : ℤ) - jlb) * S - 1) * 2 + 1) 2
      (computeAreas kern g.a (computeGrid g XG YG ilb jlb iub jub L S)).cols
      = (jub - jlb) * S ∧
    sliceLen ((L : ℤ) * 2)
      ((L : ℤ) * 2 + (((iub : ℤ) - ilb) * L - 1) * 2 + 1) 2
      (computeGrid g XG YG ilb jlb iub jub L S).1.rows
      = (iub - ilb) * L ∧
    sliceLen (2 * (L : ℤ))
      (2 * (L : ℤ) + ((iub : ℤ) - ilb) * 2 * L + 1) 2
      (computeGrid g XG YG ilb jlb iub jub L S).1.rows
      = (iub - ilb) * L + 1 ∧
    sliceLen (2 * (S : ℤ) - 1)
      (2 * (S : ℤ) - 1 + ((jub : ℤ) - jlb) * 2 * S + 1) 2
      (computeGrid g XG YG ilb jlb iub jub L S).1.cols
      = (jub - jlb) * S + 1 ∧
    sliceLen (2 * (L : ℤ))
      (2 * (L : ℤ) + (((iub : ℤ) - ilb) * L - 1) * 2 + 1) 2
      (computeAreas kern g.a (computeGrid g XG YG ilb jlb iub jub L S)).rows
      = (iub - ilb) * L ∧
    sliceLen (2 * (S : ℤ) - 1)
      (2 * (S : ℤ) - 1 + ((jub : ℤ) - jlb) * S * 2 + 1) 2
      (computeAreas kern g.a (computeGrid g XG YG ilb jlb iub jub L S)).cols
      = (jub - jlb) * S + 1 := by
  have hrows1 : (computeGrid g XG YG ilb jlb iub jub L S).1.rows
      = (iub - ilb + 2) * (L * 2) + 1 := by
    rw [(computeGrid_dims g XG YG ilb jlb iub jub L S).1, cgRows,
      show ((iub : ℤ) + 1 - ((ilb : ℤ) - 1)).toNat = iub - ilb + 2 from by omega]
  have hcols1 : (computeGrid g XG YG ilb jlb iub jub L S).1.cols
      = (jub - jlb + 2) * (S * 2) + 1 := by
    rw [(computeGrid_dims g XG YG ilb jlb iub jub L S).2.1, cgCols,
      show ((jub : ℤ) + 1 - ((jlb : ℤ) - 1)).toNat = jub - jlb + 2 from by omega]
  have hcar : (computeAreas kern g.a
      (computeGrid g XG YG ilb jlb iub jub L S)).rows
      = (iub - ilb + 2) * (L * 2) := by
    simp only [computeAreas]
    rw [hrows1]
    omega
  have hcac : (computeAreas kern g.a
      (computeGrid g XG YG ilb jlb iub jub L S)).cols
      = (jub - jlb + 2) * (S * 2) := by
    simp only [computeAreas]
    rw [hcols1]
    omega
  have e1i : ((iub : ℤ) - ilb) * L = (((iub - ilb) * L : ℕ) : ℤ) := by
    rw [Nat.cast_mul, Nat.cast_sub (le_of_lt hi)]
  have e1j : ((jub : ℤ) - jlb) * S = (((jub - jlb) * S : ℕ) : ℤ) := by
    rw [Nat.cast_mul, Nat.cast_sub (le_of_lt hj)]
  have e4i : ((iub : ℤ) - ilb) * 2 * L = 2 * (((iub - ilb) * L : ℕ) : ℤ) := by
    rw [Nat.cast_mul, Nat.cast_sub (le_of_lt hi)]
    ring
  have e4j : ((jub : ℤ) - jlb) * 2 * S = 2 * (((jub - jlb) * S : ℕ) : ℤ) := by
    rw [Nat.cast_mul, Nat.cast_sub (le_of_lt hj)]
    ring
  have e2i : (iub - ilb + 2) * (L * 2) = (iub - ilb) * L * 2 + L * 4 := by ring
  have e2j : (jub - jlb + 2) * (S * 2) = (jub - jlb) * S * 2 + S * 4 := by ring
  have e3i : 1 ≤ (iub - ilb) * L := Nat.mul_pos (by omega) (by omega)
  have e3j : 1 ≤ (jub - jlb) * S := Nat.mul_pos (by omega) (by omega)
  refine ⟨?_, ?_, ?_, ?_, ?_, ?_, ?_, ?_, ?_, ?_, ?_, ?_, ?_, ?_, ?_, ?_⟩
  · exact sliceLen_count2e ((L : ℤ) * 2) ((iub - ilb) * L)
      (by omega) (by omega) e3i (by rw [hcar]; omega)
  · exact sliceLen_count2e ((S : ℤ) * 2) ((jub - jlb) * S)
      (by omega) (by omega) e3j (by rw [hcac]; omega)
  · exact sliceLen_count2e ((L : ℤ) * 2 - 1) ((iub - ilb) * L + 1)
      (by omega) (by omega) (by omega) (by rw [hrows1]; omega)
  · exact sliceLen_count2e ((S : ℤ) * 2 + 1) ((jub - jlb) * S)
      (by omega) (by omega) e3j (by rw [hcols1]; omega)
  · exact sliceLen_count2e ((L : ℤ) * 2 + 1) ((iub - ilb) * L)
      (by omega) (by omega) e3i (by rw [hrows1]; omega)
  · exact sliceLen_count2e ((S : ℤ) * 2 - 1) ((jub - jlb) * S + 1)
      (by omega) (by omega) (by omega) (by rw [hcols1]; omega)
  · exact sliceLen_count2e ((L : ℤ) * 2 - 1) ((iub - ilb) * L + 1)
      (by omega) (by omega) (by omega) (by rw [hcar]; omega)
  · exact sliceLen_count2e ((S : ℤ) * 2 - 1) ((jub - jlb) * S + 1)
      (by omega) (by omega) (by omega) (by rw [hcac]; omega)
  · exact sliceLen_count2e ((S : ℤ) * 2) ((jub - jlb) * S + 1)
      (by omega) (by omega) (by omega) (by rw [hcols1]; omega)
  · exact sliceLen_count2e ((S : ℤ) * 2) ((jub - jlb) * S)
      (by omega) (by omega) e3j (by rw [hcols1]; omega)
  · exact sliceLen_count2e ((S : ℤ) * 2) ((jub - jlb) * S)
      (by omega) (by omega) e3j (by rw [hcac]; omega)
  · exact sliceLen_count2e ((L : ℤ) * 2) ((iub - ilb) * L)
      (by omega) (by omega) e3i (by rw [hrows1]; omega)
  · exact sliceLen_count2e (2 * (L : ℤ)) ((iub - ilb) * L + 1)
      (by omega) (by omega) (by omega) (by rw [hrows1]; omega)
  · exact sliceLen_count2e (2 * (S : ℤ) - 1) ((jub - jlb) * S + 1)
      (by omega) (by omega) (by omega) (by rw [hcols1]; omega)
  · exact sliceLen_count2e (2 * (L : ℤ)) ((iub - ilb) * L)
      (by omega) (by omega) e3i (by rw [hcar]; omega)
  · exact sliceLen_count2e (2 * (S : ℤ) - 1) ((jub - jlb) * S + 1)
      (by omega) (by omega) (by omega) (by rw [hcac]; omega)

/-- On an interior, nondegenerate region with subscales at least 1, every
iterator of `regridCore` is nonempty: it succeeds and returns exactly
the assembled fields and cell counts. -/
theorem regridCore_ok (g : Geodesy) (kern : ℚ × ℚ → ℚ × ℚ → ℚ × ℚ → ℚ × ℚ → ℚ)
    (XG YG : Mat) (ilb jlb iub jub L S : ℕ) (hL : 1 ≤ L) (hS : 1 ≤ S)
    (hilb : 1 ≤ ilb) (hi : ilb < iub) (hiub : iub + 2 ≤ XG.rows)
    (hjlb : 1 ≤ jlb) (hj : jlb < jub) (hjub : jub + 2 ≤ XG.cols) :
    regridCore g kern XG YG ilb jlb iub jub L S = .ok
      (⟨outXC (computeGrid g XG YG ilb jlb iub jub L S).1 ilb jlb iub jub L S,
        outXC (computeGrid g XG YG ilb jlb iub jub L S).2 ilb jlb iub jub L S,
        outXGf (computeGrid g XG YG ilb jlb iub jub L S).1 ilb jlb iub jub L S,
        outXGf (computeGrid g XG YG ilb jlb iub jub L S).2 ilb jlb iub jub L S,
        outDXG g (computeGrid g XG YG ilb jlb iub jub L S).1
          (computeGrid g XG YG ilb jlb iub jub L S).2 ilb jlb iub jub L S,
        outDYG g (computeGrid g XG YG ilb jlb iub jub L S).1
          (computeGrid g XG YG ilb jlb iub jub L S).2 ilb jlb iub jub L S,
        outRAC (computeAreas kern g.a (computeGrid g XG YG ilb jlb iub jub L S))
          ilb jlb iub jub L S,
        outDXC g (computeGrid g XG YG ilb jlb iub jub L S).1
          (computeGrid g XG YG ilb jlb iub jub L S).2 ilb jlb iub jub L S,
        outDYC g (computeGrid g XG YG ilb jlb iub jub L S).1
          (computeGrid g XG YG ilb jlb iub jub L S).2 ilb jlb iub jub L S,
        outRAZ (computeAreas kern g.a (computeGrid g XG YG ilb jlb iub jub L S))
          ilb jlb iub jub L S,
        outDXV g (computeGrid g XG YG ilb jlb iub jub L S).1
          (computeGrid g XG YG ilb jlb iub jub L S).2 ilb jlb iub jub L S,
        outDYF g (computeGrid g XG YG ilb jlb iub jub L S).1
          (computeGrid g XG YG ilb jlb iub jub L S).2 ilb jlb iub jub L S,
        outRAW (computeAreas kern g.a (computeGrid g XG YG ilb jlb iub jub L S))
          ilb jlb iub jub L S,
        outDXF g (computeGrid g XG YG ilb jlb iub jub L S).1
          (computeGrid g XG YG ilb jlb iub jub L S).2 ilb jlb iub jub L S,
        outDYU g (computeGrid g XG YG ilb jlb iub jub L S).1
          (computeGrid g XG YG ilb jlb iub jub L S).2 ilb jlb iub jub L S,
        outRAS (computeAreas kern g.a (computeGrid g XG YG ilb jlb iub jub L S))
          ilb jlb iub jub L S⟩,
       (iub - ilb) * L, (jub - jlb) * S) := by
  obtain ⟨f1, f2, f3, f4⟩ := fillIterShapes ilb jlb iub jub L S hL hS
    (le_of_lt hi) (le_of_lt hj)
  obtain ⟨x1, x2, x3, x4⟩ := xgfShapes g XG YG ilb jlb iub jub L S hL hS
    (le_of_lt hi) (le_of_lt hj)
  obtain ⟨s1, s2, s3, s4, s5, s6, s7, s8, s9, s10, s11, s12, s13, s14, s15,
    s16⟩ := stepFourShapes g kern XG YG ilb jlb iub jub L S hL hS hi hj
  have e3i : 1 ≤ (iub - ilb) * L := Nat.mul_pos (by omega) (by omega)
  have e3j : 1 ≤ (jub - jlb) * S := Nat.mul_pos (by omega) (by omega)
  have hsr : sliceLen ((ilb : ℤ) - 1) ((iub : ℤ) + 2) 1 XG.rows
      = iub - ilb + 3 := by
    rw [sliceLen_eq_of_bounds (by omega) (by omega) (by exact_mod_cast hiub)]
    omega
  have hsc : sliceLen ((jlb : ℤ) - 1) ((jub : ℤ) + 2) 1 XG.cols
      = jub - jlb + 3 := by
    rw [sliceLen_eq_of_bounds (by omega) (by omega) (by exact_mod_cast hjub)]
    omega
  simp only [regridCore]
  rw [if_neg (by rw [hsr, hsc]; omega), if_neg (by omega),
    if_neg (by rw [f1, f2, f3, f4]; omega),
    if_neg (by rw [x1, x2, x3, x4, s1, s2, s3, s4, s5, s6, s7, s8, s9, s10,
      s12, s13, s14, s15, s16]; omega)]

/-- On an interior region with subscales at least 1 but a degenerate
axis (`ilb = iub` or `jlb = jub`), seeding and the fills succeed, and the
first zero-sized step-4 nditer (DXG's over `outgrid[XG][:-1, :]` for a
degenerate first axis, else DYG's over `outgrid[XG][:, :-1]`) raises the
zero-sized-operands `ValueError`. -/
theorem regridCore_degenerate (g : Geodesy)
    (kern : ℚ × ℚ → ℚ × ℚ → ℚ × ℚ → ℚ × ℚ → ℚ) (XG YG : Mat)
    (ilb jlb iub jub L S : ℕ) (hL : 1 ≤ L) (hS : 1 ≤ S) (hilb : 1 ≤ ilb)
    (hij : ilb ≤ iub) (hiub : iub + 2 ≤ XG.rows) (hjlb : 1 ≤ jlb)
    (hjj : jlb ≤ jub) (hjub : jub + 2 ≤ XG.cols)
    (hdeg : ilb = iub ∨ jlb = jub) :
    regridCore g kern XG YG ilb jlb iub jub L S
      = .error PyErr.valueErrorZeroSize := by
  obtain ⟨f1, f2, f3, f4⟩ := fillIterShapes ilb jlb iub jub L S hL hS hij hjj
  obtain ⟨x1, x2, x3, x4⟩ := xgfShapes g XG YG ilb jlb iub jub L S hL hS hij hjj
  have hsr : sliceLen ((ilb : ℤ) - 1) ((iub : ℤ) + 2) 1 XG.rows
      = iub - ilb + 3 := by
    rw [sliceLen_eq_of_bounds (by omega) (by omega) (by exact_mod_cast hiub)]
    omega
  have hsc : sliceLen ((jlb : ℤ) - 1) ((jub : ℤ) + 2) 1 XG.cols
      = jub - jlb + 3 := by
    rw [sliceLen_eq_of_bounds (by omega) (by omega) (by exact_mod_cast hjub)]
    omega
  simp only [regridCore]
  rw [if_neg (by rw [hsr, hsc]; omega), if_neg (by omega),
    if_neg (by rw [f1, f2, f3, f4]; omega)]
  rcases hdeg with h | h
  · rw [if_pos (Or.inl (show sliceLen 0 (-1) 1
      (outXGf (computeGrid g XG YG ilb jlb iub jub L S).1
        ilb jlb iub jub L S).rows = 0 from by rw [x1, h]; simp))]
  · rw [if_pos (Or.inr (Or.inr (Or.inr (Or.inl (show sliceLen 0 (-1) 1
      (outXGf (computeGrid g XG YG ilb jlb iub jub L S).1
        ilb jlb iub jub L S).cols = 0 from by rw [x4, h]; simp)))))]

/-- C1: for every valid input (located bounds `ilb < iub`, `jlb < jub`
describing an interior region of the source grid, subscale factors at
least 1 — under which every iterator of `regrid` is nonempty and the run
succeeds), each of the 16 output fields of `regrid` has exactly the §4.4
table shape as a function of `M = (iub-ilb)*lon_subscale` and
`N = (jub-jlb)*lat_subscale`:
XC, YC, RAC, DYF, DXF have shape M x N; XG, YG, RAZ, DXV, DYU have shape
(M+1) x (N+1); DXG, DYC, RAS have shape M x (N+1); DYG, DXC, RAW have
shape (M+1) x N. -/
theorem spec2_c1_shapes (g : Geodesy)
    (kern : ℚ × ℚ → ℚ × ℚ → ℚ × ℚ → ℚ × ℚ → ℚ) (XG YG : Mat)
    (ilb jlb iub jub L S : ℕ) (hL : 1 ≤ L) (hS : 1 ≤ S)
    (hilb : 1 ≤ ilb) (hi : ilb < iub) (hiub : iub + 2 ≤ XG.rows)
    (hjlb : 1 ≤ jlb) (hj : jlb < jub) (hjub : jub + 2 ≤ XG.cols) :
    ((getOut (regridCore g kern XG YG ilb jlb iub jub L S)).XC.rows
        = (iub - ilb) * L ∧
     (getOut (regridCore g kern XG YG ilb jlb iub jub L S)).XC.cols
        = (jub - jlb) * S) ∧
    ((getOut (regridCore g kern XG YG ilb jlb iub jub L S)).YC.rows
        = (iub - ilb) * L ∧
     (getOut (regridCore g kern XG YG ilb jlb iub jub L S)).YC.cols
        = (jub - jlb) * S) ∧
    ((getOut (regridCore g kern XG YG ilb jlb iub jub L S)).XG.rows
        = (iub - ilb) * L + 1 ∧
     (getOut (regridCore g kern XG YG ilb jlb iub jub L S)).XG.cols
        = (jub - jlb) * S + 1) ∧
    ((getOut (regridCore g kern XG YG ilb jlb iub jub L S)).YG.rows
        = (iub - ilb) * L + 1 ∧
     (getOut (regridCore g kern XG YG ilb jlb iub jub L S)).YG.cols
        = (jub - jlb) * S + 1) ∧
    ((getOut (regridCore g kern XG YG ilb jlb iub jub L S)).DXG.rows
        = (iub - ilb) * L ∧
     (getOut (regridCore g kern XG YG ilb jlb iub jub L S)).DXG.cols
        = (jub - jlb) * S + 1) ∧
    ((getOut (regridCore g kern XG YG ilb jlb iub jub L S)).DYG.rows
        = (iub - ilb) * L + 1 ∧
     (getOut (regridCore g kern XG YG ilb jlb iub jub L S)).DYG.cols
        = (jub - jlb) * S) ∧
    ((getOut (regridCore g kern XG YG ilb jlb iub jub L S)).RAC.rows
        = (iub - ilb) * L ∧
     (getOut (regridCore g kern XG YG ilb jlb iub jub L S)).RAC.cols
        = (jub - jlb) * S) ∧
    ((getOut (regridCore g kern XG YG ilb jlb iub jub L S)).DXC.rows
        = (iub - ilb) * L + 1 ∧
     (getOut (regridCore g kern XG YG ilb jlb iub jub L S)).DXC.cols
        = (jub - jlb) * S) ∧
    ((getOut (regridCore g kern XG YG ilb jlb iub jub L S)).DYC.rows
        = (iub - ilb) * L ∧
     (getOut (regridCore g kern XG YG ilb jlb iub jub L S)).DYC.cols
        = (jub - jlb) * S + 1) ∧
    ((getOut (regridCore g kern XG YG ilb jlb iub jub L S)).RAZ.rows
        = (iub - ilb) * L + 1 ∧
     (getOut (regridCore g kern XG YG ilb jlb iub jub L S)).RAZ.cols
        = (jub - jlb) * S + 1) ∧
    ((getOut (regridCore g kern XG YG ilb jlb iub jub L S)).DXV.rows
        = (iub - ilb) * L + 1 ∧
     (getOut (regridCore g kern XG YG ilb jlb iub jub L S)).DXV.cols
        = (jub - jlb) * S + 1) ∧
    ((getOut (regridCore g kern XG YG ilb jlb iub jub L S)).DYF.rows
        = (iub - ilb) * L ∧
     (getOut (regridCore g kern XG YG ilb jlb iub jub L S)).DYF.cols
        = (jub - jlb) * S) ∧
    ((getOut (regridCore g kern XG YG ilb jlb iub jub L S)).RAW.rows
        = (iub - ilb) * L + 1 ∧
     (getOut (regridCore g kern XG YG ilb jlb iub jub L S)).RAW.cols
        = (jub - jlb) * S) ∧
    ((getOut (regridCore g kern XG YG ilb jlb iub jub L S)).DXF.rows
        = (iub - ilb) * L ∧
     (getOut (regridCore g kern XG YG ilb jlb iub jub L S)).DXF.cols
        = (jub - jlb) * S) ∧
    ((getOut (regridCore g kern XG YG ilb jlb iub jub L S)).DYU.rows
        = (iub - ilb) * L + 1 ∧
     (getOut (regridCore g kern XG YG ilb jlb iub jub L S)).DYU.cols
        = (jub - jlb) * S + 1) ∧
    ((getOut (regridCore g kern XG YG ilb jlb iub jub L S)).RAS.rows
        = (iub - ilb) * L ∧
     (getOut (regridCore g kern XG YG ilb jlb iub jub L S)).RAS.cols
        = (jub - jlb) * S + 1) := by
  have hrows1 : (computeGrid g XG YG ilb jlb iub jub L S).1.rows
      = (iub - ilb + 2) * (L * 2) + 1 := by
    rw [(computeGrid_dims g XG YG ilb jlb iub jub L S).1, cgRows,
      show ((iub : ℤ) + 1 - ((ilb : ℤ) - 1)).toNat = iub - ilb + 2 from by omega]
  have hcols1 : (computeGrid g XG YG ilb jlb iub jub L S).1.cols
      = (jub - jlb + 2) * (S * 2) + 1 := by
    rw [(computeGrid_dims g XG YG ilb jlb iub jub L S).2.1, cgCols,
      show ((jub : ℤ) + 1 - ((jlb : ℤ) - 1)).toNat = jub - jlb + 2 from by omega]
  have hrows2 : (computeGrid g XG YG ilb jlb iub jub L S).2.rows
      = (iub - ilb + 2) * (L * 2) + 1 := by
    rw [(computeGrid_dims g XG YG ilb jlb iub jub L S).2.2.1, cgRows,
      show ((iub : ℤ) + 1 - ((ilb : ℤ) - 1)).toNat = iub - ilb + 2 from by omega]
  have hcols2 : (computeGrid g XG YG ilb jlb iub jub L S).2.cols
      = (jub - jlb + 2) * (S * 2) + 1 := by
    rw [(computeGrid_dims g XG YG ilb jlb iub jub L S).2.2.2, cgCols,
      show ((jub : ℤ) + 1 - ((jlb : ℤ) - 1)).toNat = jub - jlb + 2 from by omega]
  have e1i : ((iub : ℤ) - ilb) * L = (((iub - ilb) * L : ℕ) : ℤ) := by
    rw [Nat.cast_mul, Nat.cast_sub (le_of_lt hi)]
  have e1j : ((jub : ℤ) - jlb) * S = (((jub - jlb) * S : ℕ) : ℤ) := by
    rw [Nat.cast_mul, Nat.cast_sub (le_of_lt hj)]
  have e2i : (iub - ilb + 2) * (L * 2) = (iub - ilb) * L * 2 + L * 4 := by ring
  have e2j : (jub - jlb + 2) * (S * 2) = (jub - jlb) * S * 2 + S * 4 := by ring
  have e3i : 1 ≤ (iub - ilb) * L := Nat.mul_pos (by omega) (by omega)
  have e3j : 1 ≤ (jub - jlb) * S := Nat.mul_pos (by omega) (by omega)
  rw [regridCore_ok g kern XG YG ilb jlb iub jub L S hL hS hilb hi hiub
    hjlb hj hjub]
  refine ⟨⟨?_, ?_⟩, ⟨?_, ?_⟩, ⟨?_, ?_⟩, ⟨?_, ?_⟩, ⟨?_, ?_⟩, ⟨?_, ?_⟩,
    ⟨?_, ?_⟩, ⟨?_, ?_⟩, ⟨?_, ?_⟩, ⟨?_, ?_⟩, ⟨?_, ?_⟩, ⟨?_, ?_⟩, ⟨?_, ?_⟩,
    ⟨?_, ?_⟩, ⟨?_, ?_⟩, ⟨?_, ?_⟩⟩
  · show (outXC (computeGrid g XG YG ilb jlb iub jub L S).1
      ilb jlb iub jub L S).rows = (iub - ilb) * L
    simp only [outXC, sliceMat]
    rw [hrows1]
    exact sliceLen_count2 (by omega) (by omega) e3i (by omega)
  · show (outXC (computeGrid g XG YG ilb jlb iub jub L S).1
      ilb jlb iub jub L S).cols = (jub - jlb) * S
    simp only [outXC, sliceMat]
    rw [hcols1]
    exact sliceLen_count2 (by omega) (by omega) e3j (by omega)
  · show (outXC (computeGrid g XG YG ilb jlb iub jub L S).2
      ilb jlb iub jub L S).rows = (iub - ilb) * L
    simp only [outXC, sliceMat]
    rw [hrows2]
    exact sliceLen_count2 (by omega) (by omega) e3i (by omega)
  · show (outXC (computeGrid g XG YG ilb jlb iub jub L S).2
      ilb jlb iub jub L S).cols = (jub - jlb) * S
    simp only [outXC, sliceMat]
    rw [hcols2]
    exact sliceLen_count2 (by omega) (by omega) e3j (by omega)
  · show (outXGf (computeGrid g XG YG ilb jlb iub jub L S).1
      ilb jlb iub jub L S).rows = (iub - ilb) * L + 1
    simp only [outXGf, sliceMat]
    rw [hrows1]
    exact sliceLen_count2 (by omega) (by omega) (by omega) (by omega)
  · show (outXGf (computeGrid g XG YG ilb jlb iub jub L S).1
      ilb jlb iub jub L S).cols = (jub - jlb) * S + 1
    simp only [outXGf, sliceMat]
    rw [hcols1]
    exact sliceLen_count2 (by omega) (by omega) (by omega) (by omega)
  · show (outXGf (computeGrid g XG YG ilb jlb iub jub L S).2
      ilb jlb iub jub L S).rows = (iub - ilb) * L + 1
    simp only [outXGf, sliceMat]
    rw [hrows2]
    exact sliceLen_count2 (by omega) (by omega) (by omega) (by omega)
  · show (outXGf (computeGrid g XG YG ilb jlb iub jub L S).2
      ilb jlb iub jub L S).cols = (jub - jlb) * S + 1
    simp only [outXGf, sliceMat]
    rw [hcols2]
    exact sliceLen_count2 (by omega) (by omega) (by omega) (by omega)
  · show (outDXG g (computeGrid g XG YG ilb jlb iub jub L S).1
      (computeGrid g XG YG ilb jlb iub jub L S).2 ilb jlb iub jub L S).rows
      = (iub - ilb) * L
    simp only [outDXG]
    exact (fillOver_dims _ _ _ _ _).1
  · show (outDXG g (computeGrid g XG YG ilb jlb iub jub L S).1
      (computeGrid g XG YG ilb jlb iub jub L S).2 ilb jlb iub jub L S).cols
      = (jub - jlb) * S + 1
    simp only [outDXG]
    exact (fillOver_dims _ _ _ _ _).2
  · show (outDYG g (computeGrid g XG YG ilb jlb iub jub L S).1
      (computeGrid g XG YG ilb jlb iub jub L S).2 ilb jlb iub jub L S).rows
      = (iub - ilb) * L + 1
    simp only [outDYG]
    exact (fillOver_dims _ _ _ _ _).1
  · show (outDYG g (computeGrid g XG YG ilb jlb iub jub L S).1
      (computeGrid g XG YG ilb jlb iub jub L S).2 ilb jlb iub jub L S).cols
      = (jub - jlb) * S
    simp only [outDYG]
    exact (fillOver_dims _ _ _ _ _).2
  · show (outRAC (computeAreas kern g.a
      (computeGrid g XG YG ilb jlb iub jub L S)) ilb jlb iub jub L S).rows
      = (iub - ilb) * L
    simp only [outRAC]
    exact (fillOver_dims _ _ _ _ _).1
  · show (outRAC (computeAreas kern g.a
      (computeGrid g XG YG ilb jlb iub jub L S)) ilb jlb iub jub L S).cols
      = (jub - jlb) * S
    simp only [outRAC]
    exact (fillOver_dims _ _ _ _ _).2
  · show (outDXC g (computeGrid g XG YG ilb jlb iub jub L S).1
      (computeGrid g XG YG ilb jlb iub jub L S).2 ilb jlb iub jub L S).rows
      = (iub - ilb) * L + 1
    simp only [outDXC]
    exact (fillOver_dims _ _ _ _ _).1
  · show (outDXC g (computeGrid g XG YG ilb jlb iub jub L S).1
      (computeGrid g XG YG ilb jlb iub jub L S).2 ilb jlb iub jub L S).cols
      = (jub - jlb) * S
    simp only [outDXC]
    exact (fillOver_dims _ _ _ _ _).2
  · show (outDYC g (computeGrid g XG YG ilb jlb iub jub L S).1
      (computeGrid g XG YG ilb jlb iub jub L S).2 ilb jlb iub jub L S).rows
      = (iub - ilb) * L
    simp only [outDYC]
    exact (fillOver_dims _ _ _ _ _).1
  · show (outDYC g (computeGrid g XG YG ilb jlb iub jub L S).1
      (computeGrid g XG YG ilb jlb iub jub L S).2 ilb jlb iub jub L S).cols
      = (jub - jlb) * S + 1
    simp only [outDYC]
    exact (fillOver_dims _ _ _ _ _).2
  · show (outRAZ (computeAreas kern g.a
      (computeGrid g XG YG ilb jlb iub jub L S)) ilb jlb iub jub L S).rows
      = (iub - ilb) * L + 1
    simp only [outRAZ]
    exact (fillOver_dims _ _ _ _ _).1
  · show (outRAZ (computeAreas kern g.a
      (computeGrid g XG YG ilb jlb iub jub L S)) ilb jlb iub jub L S).cols
      = (jub - jlb) * S + 1
    simp only [outRAZ]
    exact (fillOver_dims _ _ _ _ _).2
  · show (outDXV g (computeGrid g XG YG ilb jlb iub jub L S).1
      (computeGrid g XG YG ilb jlb iub jub L S).2 ilb jlb iub jub L S).rows
      = (iub - ilb) * L + 1
    simp only [outDXV]
    exact (fillOver_dims _ _ _ _ _).1
  · show (outDXV g (computeGrid g XG YG ilb jlb iub jub L S).1
      (computeGrid g XG YG ilb jlb iub jub L S).2 ilb jlb iub jub L S).cols
      = (jub - jlb) * S + 1
    simp only [outDXV]
    exact (fillOver_dims _ _ _ _ _).2
  · show (outDYF g (computeGrid g XG YG ilb jlb iub jub L S).1
      (computeGrid g XG YG ilb jlb iub jub L S).2 ilb jlb iub jub L S).rows
      = (iub - ilb) * L
    simp only [outDYF]
    exact (fillOver_dims _ _ _ _ _).1
  · show (outDYF g (computeGrid g XG YG ilb jlb iub jub L S).1
      (computeGrid g XG YG ilb jlb iub jub L S).2 ilb jlb iub jub L S).cols
      = (jub - jlb) * S
    simp only [outDYF]
    exact (fillOver_dims _ _ _ _ _).2
  · show (outRAW (computeAreas kern g.a
      (computeGrid g XG YG ilb jlb iub jub L S)) ilb jlb iub jub L S).rows
      = (iub - ilb) * L + 1
    simp only [outRAW]
    exact (fillOver_dims _ _ _ _ _).1
  · show (outRAW (computeAreas kern g.a
      (computeGrid g XG YG ilb jlb iub jub L S)) ilb jlb iub jub L S).cols
      = (jub - jlb) * S
    simp only [outRAW]
    exact (fillOver_dims _ _ _ _ _).2
  · show (outDXF g (computeGrid g XG YG ilb jlb iub jub L S).1
      (computeGrid g XG YG ilb jlb iub jub L S).2 ilb jlb iub jub L S).rows
      = (iub - ilb) * L
    simp only [outDXF]
    exact (fillOver_dims _ _ _ _ _).1
  · show (outDXF g (computeGrid g XG YG ilb jlb iub jub L S).1
      (computeGrid g XG YG ilb jlb iub jub L S).2 ilb jlb iub jub L S).cols
      = (jub - jlb) * S
    simp only [outDXF]
    exact (fillOver_dims _ _ _ _ _).2
  · show (outDYU g (computeGrid g XG YG ilb jlb iub jub L S).1
      (computeGrid g XG YG ilb jlb iub jub L S).2 ilb jlb iub jub L S).rows
      = (iub - ilb) * L + 1
    simp only [outDYU]
    exact (fillOver_dims _ _ _ _ _).1
  · show (outDYU g (computeGrid g XG YG ilb jlb iub jub L S).1
      (computeGrid g XG YG ilb jlb iub jub L S).2 ilb jlb iub jub L S).cols
      = (jub - jlb) * S + 1
    simp only [outDYU]
    exact (fillOver_dims _ _ _ _ _).2
  · show (outRAS (computeAreas kern g.a
      (computeGrid g XG YG ilb jlb iub jub L S)) ilb jlb iub jub L S).rows
      = (iub - ilb) * L
    simp only [outRAS]
    exact (fillOver_dims _ _ _ _ _).1
  · show (outRAS (computeAreas kern g.a
      (computeGrid g XG YG ilb jlb iub jub L S)) ilb jlb iub jub L S).cols
      = (jub - jlb) * S + 1
    simp only [outRAS]
    exact (fillOver_dims _ _ _ _ _).2

theorem spec2_c1_shapes_witness :
    1 ≤ (2 : ℕ) ∧
    (getOut (regridCore flatGeod kern1 gX5 gY5 1 1 2 2 1 1)).XC.rows
      = (2 - 1) * 1 :=
  ⟨by decide,
   ((spec2_c1_shapes flatGeod kern1 gX5 gY5 1 1 2 2 1 1 (by decide) (by decide)
     (by decide) (by decide) (by decide) (by decide) (by decide)
     (by decide)).1).1⟩

/-- C3: for every valid input (interior nondegenerate located region,
subscale factors at least 1, under which the run succeeds), each of
RAC, RAZ, RAW, RAS at `(m, n)` is the sum of exactly the
4 elemental compute-area cells forming the quadrants around the
corresponding staggered point: the strided anchor cell plus its
`(i+1, j)`, `(i+1, j+1)` and `(i, j+1)` neighbors in compute-area index
space, at the staggering-specific offsets
(RAC: `(L*2, S*2)`, RAZ: `(L*2-1, S*2-1)`, RAW: `(L*2-1, S*2)`,
RAS: `(L*2, S*2-1)`). -/
theorem spec2_c3_area_sums (g : Geodesy)
    (kern : ℚ × ℚ → ℚ × ℚ → ℚ × ℚ → ℚ × ℚ → ℚ) (XG YG : Mat)
    (ilb jlb iub jub L S : ℕ) (hL : 1 ≤ L) (hS : 1 ≤ S)
    (hilb : 1 ≤ ilb) (hi : ilb < iub) (hiub : iub + 2 ≤ XG.rows)
    (hjlb : 1 ≤ jlb) (hj : jlb < jub) (hjub : jub + 2 ≤ XG.cols) :
    (∀ m n, m < (iub - ilb) * L → n < (jub - jlb) * S →
      (getOut (regridCore g kern XG YG ilb jlb iub jub L S)).RAC.data m n =
        (computeAreas kern g.a (computeGrid g XG YG ilb jlb iub jub L S)).data
          (L * 2 + 2 * m) (S * 2 + 2 * n)
        + (computeAreas kern g.a (computeGrid g XG YG ilb jlb iub jub L S)).data
          (L * 2 + 2 * m + 1) (S * 2 + 2 * n)
        + (computeAreas kern g.a (computeGrid g XG YG ilb jlb iub jub L S)).data
          (L * 2 + 2 * m + 1) (S * 2 + 2 * n + 1)
        + (computeAreas kern g.a (computeGrid g XG YG ilb jlb iub jub L S)).data
          (L * 2 + 2 * m) (S * 2 + 2 * n + 1)) ∧
    (∀ m n, m < (iub - ilb) * L + 1 → n < (jub - jlb) * S + 1 →
      (getOut (regridCore g kern XG YG ilb jlb iub jub L S)).RAZ.data m n =
        (computeAreas kern g.a (computeGrid g XG YG ilb jlb iub jub L S)).data
          (L * 2 - 1 + 2 * m) (S * 2 - 1 + 2 * n)
        + (computeAreas kern g.a (computeGrid g XG YG ilb jlb iub jub L S)).data
          (L * 2 - 1 + 2 * m + 1) (S * 2 - 1 + 2 * n)
        + (computeAreas kern g.a (computeGrid g XG YG ilb jlb iub jub L S)).data
          (L * 2 - 1 + 2 * m + 1) (S * 2 - 1 + 2 * n + 1)
        + (computeAreas kern g.a (computeGrid g XG YG ilb jlb iub jub L S)).data
          (L * 2 - 1 + 2 * m) (S * 2 - 1 + 2 * n + 1)) ∧
    (∀ m n, m < (iub - ilb) * L + 1 → n < (jub - jlb) * S →
      (getOut (regridCore g kern XG YG ilb jlb iub jub L S)).RAW.data m n =
        (computeAreas kern g.a (computeGrid g XG YG ilb jlb iub jub L S)).data
          (L * 2 - 1 + 2 * m) (S * 2 + 2 * n)
        + (computeAreas kern g.a (computeGrid g XG YG ilb jlb iub jub L S)).data
          (L * 2 - 1 + 2 * m + 1) (S * 2 + 2 * n)
        + (computeAreas kern g.a (computeGrid g XG YG ilb jlb iub jub L S)).data
          (L * 2 - 1 + 2 * m + 1) (S * 2 + 2 * n + 1)
        + (computeAreas kern g.a (computeGrid g XG YG ilb jlb iub jub L S)).data
          (L * 2 - 1 + 2 * m) (S * 2 + 2 * n + 1)) ∧
    (∀ m n, m < (iub - ilb) * L → n < (jub - jlb) * S + 1 →
      (getOut (regridCore g kern XG YG ilb jlb iub jub L S)).RAS.data m n =
        (computeAreas kern g.a (computeGrid g XG YG ilb jlb iub jub L S)).data
          (L * 2 + 2 * m) (S * 2 - 1 + 2 * n)
        + (computeAreas kern g.a (computeGrid g XG YG ilb jlb iub jub L S)).data
          (L * 2 + 2 * m + 1) (S * 2 - 1 + 2 * n)
        + (computeAreas kern g.a (computeGrid g XG YG ilb jlb iub jub L S)).data
          (L * 2 + 2 * m + 1) (S * 2 - 1 + 2 * n + 1)
        + (computeAreas kern g.a (computeGrid g XG YG ilb jlb iub jub L S)).data
          (L * 2 + 2 * m) (S * 2 - 1 + 2 * n + 1)) := by
  have hrows1 : (computeGrid g XG YG ilb jlb iub jub L S).1.rows
      = (iub - ilb + 2) * (L * 2) + 1 := by
    rw [(computeGrid_dims g XG YG ilb jlb iub jub L S).1, cgRows,
      show ((iub : ℤ) + 1 - ((ilb : ℤ) - 1)).toNat = iub - ilb + 2 from by omega]
  have hcols1 : (computeGrid g XG YG ilb jlb iub jub L S).1.cols
      = (jub - jlb + 2) * (S * 2) + 1 := by
    rw [(computeGrid_dims g XG YG ilb jlb iub jub L S).2.1, cgCols,
      show ((jub : ℤ) + 1 - ((jlb : ℤ) - 1)).toNat = jub - jlb + 2 from by omega]
  have hcar : (computeAreas kern g.a
      (computeGrid g XG YG ilb jlb iub jub L S)).rows
      = (iub - ilb + 2) * (L * 2) := by
    simp only [computeAreas]
    rw [hrows1]
    omega
  have hcac : (computeAreas kern g.a
      (computeGrid g XG YG ilb jlb iub jub L S)).cols
      = (jub - jlb + 2) * (S * 2) := by
    simp only [computeAreas]
    rw [hcols1]
    omega
  have e1i : ((iub : ℤ) - ilb) * L = (((iub - ilb) * L : ℕ) : ℤ) := by
    rw [Nat.cast_mul, Nat.cast_sub (le_of_lt hi)]
  have e1j : ((jub : ℤ) - jlb) * S = (((jub - jlb) * S : ℕ) : ℤ) := by
    rw [Nat.cast_mul, Nat.cast_sub (le_of_lt hj)]
  have e2i : (iub - ilb + 2) * (L * 2) = (iub - ilb) * L * 2 + L * 4 := by ring
  have e2j : (jub - jlb + 2) * (S * 2) = (jub - jlb) * S * 2 + S * 4 := by ring
  have e3i : 1 ≤ (iub - ilb) * L := Nat.mul_pos (by omega) (by omega)
  have e3j : 1 ≤ (jub - jlb) * S := Nat.mul_pos (by omega) (by omega)
  rw [regridCore_ok g kern XG YG ilb jlb iub jub L S hL hS hilb hi hiub
    hjlb hj hjub]
  refine ⟨?_, ?_, ?_, ?_⟩
  · intro m n hm hn
    show (outRAC (computeAreas kern g.a
      (computeGrid g XG YG ilb jlb iub jub L S)) ilb jlb iub jub L S).data m n
      = _
    simp only [outRAC]
    rw [fillOver_data,
      sliceLen_count2e ((L : ℤ) * 2) ((iub - ilb) * L) (by omega) (by omega)
        e3i (by rw [hcar]; omega),
      sliceLen_count2e ((S : ℤ) * 2) ((jub - jlb) * S) (by omega) (by omega)
        e3j (by rw [hcac]; omega),
      if_pos ⟨hm, hn⟩]
    simp only [selRead]
    rw [pyAdjust_toNat (v := L * 2) (by omega) (by rw [hcar]; omega) (by omega),
      pyAdjust_toNat (v := S * 2) (by omega) (by rw [hcac]; omega) (by omega),
      show 2 * m + 2 * L = L * 2 + 2 * m from by ring,
      show 2 * n + 2 * S = S * 2 + 2 * n from by ring]
  · intro m n hm hn
    show (outRAZ (computeAreas kern g.a
      (computeGrid g XG YG ilb jlb iub jub L S)) ilb jlb iub jub L S).data m n
      = _
    simp only [outRAZ]
    rw [fillOver_data,
      sliceLen_count2e ((L : ℤ) * 2 - 1) ((iub - ilb) * L + 1)
        (by omega) (by omega) (by omega) (by rw [hcar]; omega),
      sliceLen_count2e ((S : ℤ) * 2 - 1) ((jub - jlb) * S + 1)
        (by omega) (by omega) (by omega) (by rw [hcac]; omega),
      if_pos ⟨hm, hn⟩]
    simp only [selRead]
    rw [pyAdjust_toNat (v := L * 2 - 1) (by omega) (by rw [hcar]; omega)
        (by omega),
      pyAdjust_toNat (v := S * 2 - 1) (by omega) (by rw [hcac]; omega)
        (by omega),
      show 2 * L - 1 + 2 * m = L * 2 - 1 + 2 * m from by omega,
      show 2 * S - 1 + 2 * n = S * 2 - 1 + 2 * n from by omega]
  · intro m n hm hn
    show (outRAW (computeAreas kern g.a
      (computeGrid g XG YG ilb jlb iub jub L S)) ilb jlb iub jub L S).data m n
      = _
    simp only [outRAW]
    rw [fillOver_data,
      sliceLen_count2e ((L : ℤ) * 2 - 1) ((iub - ilb) * L + 1)
        (by omega) (by omega) (by omega) (by rw [hcar]; omega),
      sliceLen_count2e ((S : ℤ) * 2) ((jub - jlb) * S)
        (by omega) (by omega) e3j (by rw [hcac]; omega),
      if_pos ⟨hm, hn⟩]
    simp only [selRead]
    rw [pyAdjust_toNat (v := L * 2 - 1) (by omega) (by rw [hcar]; omega)
        (by omega),
      pyAdjust_toNat (v := S * 2) (by omega) (by rw [hcac]; omega) (by omega),
      show 2 * L - 1 + 2 * m = L * 2 - 1 + 2 * m from by omega,
      show 2 * S + 2 * n = S * 2 + 2 * n from by ring]
  · intro m n hm hn
    show (outRAS (computeAreas kern g.a
      (computeGrid g XG YG ilb jlb iub jub L S)) ilb jlb iub jub L S).data m n
      = _
    simp only [outRAS]
    rw [fillOver_data,
      sliceLen_count2e (2 * (L : ℤ)) ((iub - ilb) * L)
        (by omega) (by omega) e3i (by rw [hcar]; omega),
      sliceLen_count2e (2 * (S : ℤ) - 1) ((jub - jlb) * S + 1)
        (by omega) (by omega) (by omega) (by rw [hcac]; omega),
      if_pos ⟨hm, hn⟩]
    simp only [selRead]
    rw [pyAdjust_toNat (v := L * 2) (by omega) (by rw [hcar]; omega) (by omega),
      pyAdjust_toNat (v := S * 2 - 1) (by omega) (by rw [hcac]; omega)
        (by omega),
      show 2 * L + 2 * m = L * 2 + 2 * m from by ring,
      show 2 * S - 1 + 2 * n = S * 2 - 1 + 2 * n from by omega]

theorem spec2_c3_area_sums_witness :
    1 ≤ (1 : ℕ) ∧
    (getOut (regridCore flatGeod kern1 gX5 gY5 1 1 2 2 1 1)).RAC.data 0 0 =
      (computeAreas kern1 flatGeod.a (computeGrid flatGeod gX5 gY5 1 1 2 2 1 1)).data
        (1 * 2 + 2 * 0) (1 * 2 + 2 * 0)
      + (computeAreas kern1 flatGeod.a (computeGrid flatGeod gX5 gY5 1 1 2 2 1 1)).data
        (1 * 2 + 2 * 0 + 1) (1 * 2 + 2 * 0)
      + (computeAreas kern1 flatGeod.a (computeGrid flatGeod gX5 gY5 1 1 2 2 1 1)).data
        (1 * 2 + 2 * 0 + 1) (1 * 2 + 2 * 0 + 1)
      + (computeAreas kern1 flatGeod.a (computeGrid flatGeod gX5 gY5 1 1 2 2 1 1)).data
        (1 * 2 + 2 * 0) (1 * 2 + 2 * 0 + 1) :=
  ⟨by decide,
   (spec2_c3_area_sums flatGeod kern1 gX5 gY5 1 1 2 2 1 1 (by decide) (by decide)
     (by decide) (by decide) (by decide) (by decide) (by decide)
     (by decide)).1 0 0 (by decide) (by decide)⟩

/-- C5: for every valid input (interior nondegenerate located region,
subscale factors at least 1, under which the run succeeds), each of
DXG, DYG, DXC, DYC, DXV, DYF, DXF, DYU at `(m, n)` is the
geodesic inverse-problem distance between two compute-grid points exactly
2 compute-grid index steps apart along the relevant axis (axis 1 for the
DX* fields, axis 2 for the DY* fields), at the staggering-specific
starting offsets (DXG/DYG: `(L*2, S*2)`, DXC: `(L*2-1, S*2+1)`,
DYC: `(L*2+1, S*2-1)`, DXV: `(L*2-1, S*2)`, DYF: `(L*2+1, S*2)`,
DXF: `(L*2, S*2+1)`, DYU: `(L*2, S*2-1)`). -/
theorem spec2_c5_edge_lengths (g : Geodesy)
    (kern : ℚ × ℚ → ℚ × ℚ → ℚ × ℚ → ℚ × ℚ → ℚ) (XG YG : Mat)
    (ilb jlb iub jub L S : ℕ) (hL : 1 ≤ L) (hS : 1 ≤ S)
    (hilb : 1 ≤ ilb) (hi : ilb < iub) (hiub : iub + 2 ≤ XG.rows)
    (hjlb : 1 ≤ jlb) (hj : jlb < jub) (hjub : jub + 2 ≤ XG.cols) :
    (∀ m n, m < (iub - ilb) * L → n < (jub - jlb) * S + 1 →
      (getOut (regridCore g kern XG YG ilb jlb iub jub L S)).DXG.data m n =
        (g.inv
          ((computeGrid g XG YG ilb jlb iub jub L S).1.data
            (L * 2 + 2 * m) (S * 2 + 2 * n))
          ((computeGrid g XG YG ilb jlb iub jub L S).2.data
            (L * 2 + 2 * m) (S * 2 + 2 * n))
          ((computeGrid g XG YG ilb jlb iub jub L S).1.data
            (L * 2 + 2 * m + 2) (S * 2 + 2 * n))
          ((computeGrid g XG YG ilb jlb iub jub L S).2.data
            (L * 2 + 2 * m + 2) (S * 2 + 2 * n))).2.2) ∧
    (∀ m n, m < (iub - ilb) * L + 1 → n < (jub - jlb) * S →
      (getOut (regridCore g kern XG YG ilb jlb iub jub L S)).DYG.data m n =
        (g.inv
          ((computeGrid g XG YG ilb jlb iub jub L S).1.data
            (L * 2 + 2 * m) (S * 2 + 2 * n))
          ((computeGrid g XG YG ilb jlb iub jub L S).2.data
            (L * 2 + 2 * m) (S * 2 + 2 * n))
          ((computeGrid g XG YG ilb jlb iub jub L S).1.data
            (L * 2 + 2 * m) (S * 2 + 2 * n + 2))
          ((computeGrid g XG YG ilb jlb iub jub L S).2.data
            (L * 2 + 2 * m) (S * 2 + 2 * n + 2))).2.2) ∧
    (∀ m n, m < (iub - ilb) * L + 1 → n < (jub - jlb) * S →
      (getOut (regridCore g kern XG YG ilb jlb iub jub L S)).DXC.data m n =
        (g.inv
          ((computeGrid g XG YG ilb jlb iub jub L S).1.data
            (L * 2 - 1 + 2 * m) (S * 2 + 1 + 2 * n))
          ((computeGrid g XG YG ilb jlb iub jub L S).2.data
            (L * 2 - 1 + 2 * m) (S * 2 + 1 + 2 * n))
          ((computeGrid g XG YG ilb jlb iub jub L S).1.data
            (L * 2 - 1 + 2 * m + 2) (S * 2 + 1 + 2 * n))
          ((computeGrid g XG YG ilb jlb iub jub L S).2.data
            (L * 2 - 1 + 2 * m + 2) (S * 2 + 1 + 2 * n))).2.2) ∧
    (∀ m n, m < (iub - ilb) * L → n < (jub - jlb) * S + 1 →
      (getOut (regridCore g kern XG YG ilb jlb iub jub L S)).DYC.data m n =
        (g.inv
          ((computeGrid g XG YG ilb jlb iub jub L S).1.data
            (L * 2 + 1 + 2 * m) (S * 2 - 1 + 2 * n))
          ((computeGrid g XG YG ilb jlb iub jub L S).2.data
            (L * 2 + 1 + 2 * m) (S * 2 - 1 + 2 * n))
          ((computeGrid g XG YG ilb jlb iub jub L S).1.data
            (L * 2 + 1 + 2 * m) (S * 2 - 1 + 2 * n + 2))
          ((computeGrid g XG YG ilb jlb iub jub L S).2.data
            (L * 2 + 1 + 2 * m) (S * 2 - 1 + 2 * n + 2))).2.2) ∧
    (∀ m n, m < (iub - ilb) * L + 1 → n < (jub - jlb) * S + 1 →
      (getOut (regridCore g kern XG YG ilb jlb iub jub L S)).DXV.data m n =
        (g.inv
          ((computeGrid g XG YG ilb jlb iub jub L S).1.data
            (L * 2 - 1 + 2 * m) (S * 2 + 2 * n))
          ((computeGrid g XG YG ilb jlb iub jub L S).2.data
            (L * 2 - 1 + 2 * m) (S * 2 + 2 * n))
          ((computeGrid g XG YG ilb jlb iub jub L S).1.data
            (L * 2 - 1 + 2 * m + 2) (S * 2 + 2 * n))
          ((computeGrid g XG YG ilb jlb iub jub L S).2.data
            (L * 2 - 1 + 2 * m + 2) (S * 2 + 2 * n))).2.2) ∧
    (∀ m n, m < (iub - ilb) * L → n < (jub - jlb) * S →
      (getOut (regridCore g kern XG YG ilb jlb iub jub L S)).DYF.data m n =
        (g.inv
          ((computeGrid g XG YG ilb jlb iub jub L S).1.data
            (L * 2 + 1 + 2 * m) (S * 2 + 2 * n))
          ((computeGrid g XG YG ilb jlb iub jub L S).2.data
            (L * 2 + 1 + 2 * m) (S * 2 + 2 * n))
          ((computeGrid g XG YG ilb jlb iub jub L S).1.data
            (L * 2 + 1 + 2 * m) (S * 2 + 2 * n + 2))
          ((computeGrid g XG YG ilb jlb iub jub L S).2.data
            (L * 2 + 1 + 2 * m) (S * 2 + 2 * n + 2))).2.2) ∧
    (∀ m n, m < (iub - ilb) * L → n < (jub - jlb) * S →
      (getOut (regridCore g kern XG YG ilb jlb iub jub L S)).DXF.data m n =
        (g.inv
          ((computeGrid g XG YG ilb jlb iub jub L S).1.data
            (L * 2 + 2 * m) (S * 2 + 1 + 2 * n))
          ((computeGrid g XG YG ilb jlb iub jub L S).2.data
            (L * 2 + 2 * m) (S * 2 + 1 + 2 * n))
          ((computeGrid g XG YG ilb jlb iub jub L S).1.data
            (L * 2 + 2 * m + 2) (S * 2 + 1 + 2 * n))
          ((computeGrid g XG YG ilb jlb iub jub L S).2.data
            (L * 2 + 2 * m + 2) (S * 2 + 1 + 2 * n))).2.2) ∧
    (∀ m n, m < (iub - ilb) * L + 1 → n < (jub - jlb) * S + 1 →
      (getOut (regridCore g kern XG YG ilb jlb iub jub L S)).DYU.data m n =
        (g.inv
          ((computeGrid g XG YG ilb jlb iub jub L S).1.data
            (L * 2 + 2 * m) (S * 2 - 1 + 2 * n))
          ((computeGrid g XG YG ilb jlb iub jub L S).2.data
            (L * 2 + 2 * m) (S * 2 - 1 + 2 * n))
          ((computeGrid g XG YG ilb jlb iub jub L S).1.data
            (L * 2 + 2 * m) (S * 2 - 1 + 2 * n + 2))
          ((computeGrid g XG YG ilb jlb iub jub L S).2.data
            (L * 2 + 2 * m) (S * 2 - 1 + 2 * n + 2))).2.2) := by
  have hrows1 : (computeGrid g XG YG ilb jlb iub jub L S).1.rows
      = (iub - ilb + 2) * (L * 2) + 1 := by
    rw [(computeGrid_dims g XG YG ilb jlb iub jub L S).1, cgRows,
      show ((iub : ℤ) + 1 - ((ilb : ℤ) - 1)).toNat = iub - ilb + 2 from by omega]
  have hcols1 : (computeGrid g XG YG ilb jlb iub jub L S).1.cols
      = (jub - jlb + 2) * (S * 2) + 1 := by
    rw [(computeGrid_dims g XG YG ilb jlb iub jub L S).2.1, cgCols,
      show ((jub : ℤ) + 1 - ((jlb : ℤ) - 1)).toNat = jub - jlb + 2 from by omega]
  have hrows2 : (computeGrid g XG YG ilb jlb iub jub L S).2.rows
      = (iub - ilb + 2) * (L * 2) + 1 := by
    rw [(computeGrid_dims g XG YG ilb jlb iub jub L S).2.2.1, cgRows,
      show ((iub : ℤ) + 1 - ((ilb : ℤ) - 1)).toNat = iub - ilb + 2 from by omega]
  have hcols2 : (computeGrid g XG YG ilb jlb iub jub L S).2.cols
      = (jub - jlb + 2) * (S * 2) + 1 := by
    rw [(computeGrid_dims g XG YG ilb jlb iub jub L S).2.2.2, cgCols,
      show ((jub : ℤ) + 1 - ((jlb : ℤ) - 1)).toNat = jub - jlb + 2 from by omega]
  have e1i : ((iub : ℤ) - ilb) * L = (((iub - ilb) * L : ℕ) : ℤ) := by
    rw [Nat.cast_mul, Nat.cast_sub (le_of_lt hi)]
  have e1j : ((jub : ℤ) - jlb) * S = (((jub - jlb) * S : ℕ) : ℤ) := by
    rw [Nat.cast_mul, Nat.cast_sub (le_of_lt hj)]
  have e4i : ((iub : ℤ) - ilb) * 2 * L = 2 * (((iub - ilb) * L : ℕ) : ℤ) := by
    rw [Nat.cast_mul, Nat.cast_sub (le_of_lt hi)]
    ring
  have e4j : ((jub : ℤ) - jlb) * 2 * S = 2 * (((jub - jlb) * S : ℕ) : ℤ) := by
    rw [Nat.cast_mul, Nat.cast_sub (le_of_lt hj)]
    ring
  have e2i : (iub - ilb + 2) * (L * 2) = (iub - ilb) * L * 2 + L * 4 := by ring
  have e2j : (jub - jlb + 2) * (S * 2) = (jub - jlb) * S * 2 + S * 4 := by ring
  have e3i : 1 ≤ (iub - ilb) * L := Nat.mul_pos (by omega) (by omega)
  have e3j : 1 ≤ (jub - jlb) * S := Nat.mul_pos (by omega) (by omega)
  have hXGr : (outXGf (computeGrid g XG YG ilb jlb iub jub L S).1
      ilb jlb iub jub L S).rows = (iub - ilb) * L + 1 := by
    simp only [outXGf, sliceMat]
    rw [hrows1]
    exact sliceLen_count2 (by omega) (by omega) (by omega) (by omega)
  have hXGc : (outXGf (computeGrid g XG YG ilb jlb iub jub L S).1
      ilb jlb iub jub L S).cols = (jub - jlb) * S + 1 := by
    simp only [outXGf, sliceMat]
    rw [hcols1]
    exact sliceLen_count2 (by omega) (by omega) (by omega) (by omega)
  rw [regridCore_ok g kern XG YG ilb jlb iub jub L S hL hS hilb hi hiub
    hjlb hj hjub]
  refine ⟨?_, ?_, ?_, ?_, ?_, ?_, ?_, ?_⟩
  · intro m n hm hn
    show (outDXG g (computeGrid g XG YG ilb jlb iub jub L S).1
      (computeGrid g XG YG ilb jlb iub jub L S).2 ilb jlb iub jub L S).data m n
      = _
    simp only [outDXG]
    rw [fillOver_data, hXGr, hXGc, sliceLen_drop_last, sliceLen_id,
      if_pos ⟨by omega, by omega⟩]
    simp only [outXGf, sliceMat]
    rw [pyAdjust_toNat (v := L * 2) (by omega) (by rw [hrows1]; omega) (by omega),
      pyAdjust_toNat (v := S * 2) (by omega) (by rw [hcols1]; omega) (by omega),
      pyAdjust_toNat (v := L * 2) (by omega) (by rw [hrows2]; omega) (by omega),
      pyAdjust_toNat (v := S * 2) (by omega) (by rw [hcols2]; omega) (by omega),
      show 2 * (m + 1) = 2 * m + 2 from by ring]
    rw [show L * 2 + (2 * m + 2) = L * 2 + 2 * m + 2 from by ring]
  · intro m n hm hn
    show (outDYG g (computeGrid g XG YG ilb jlb iub jub L S).1
      (computeGrid g XG YG ilb jlb iub jub L S).2 ilb jlb iub jub L S).data m n
      = _
    simp only [outDYG]
    rw [fillOver_data, hXGr, hXGc, sliceLen_drop_last, sliceLen_id,
      if_pos ⟨by omega, by omega⟩]
    simp only [outXGf, sliceMat]
    rw [pyAdjust_toNat (v := L * 2) (by omega) (by rw [hrows1]; omega) (by omega),
      pyAdjust_toNat (v := S * 2) (by omega) (by rw [hcols1]; omega) (by omega),
      pyAdjust_toNat (v := L * 2) (by omega) (by rw [hrows2]; omega) (by omega),
      pyAdjust_toNat (v := S * 2) (by omega) (by rw [hcols2]; omega) (by omega),
      show 2 * (n + 1) = 2 * n + 2 from by ring]
    rw [show S * 2 + (2 * n + 2) = S * 2 + 2 * n + 2 from by ring]
  · intro m n hm hn
    show (outDXC g (computeGrid g XG YG ilb jlb iub jub L S).1
      (computeGrid g XG YG ilb jlb iub jub L S).2 ilb jlb iub jub L S).data m n
      = _
    simp only [outDXC]
    rw [fillOver_data,
      sliceLen_count2e ((L : ℤ) * 2 - 1) ((iub - ilb) * L + 1)
        (by omega) (by omega) (by omega) (by rw [hrows1]; omega),
      sliceLen_count2e ((S : ℤ) * 2 + 1) ((jub - jlb) * S)
        (by omega) (by omega) e3j (by rw [hcols1]; omega),
      if_pos ⟨by omega, by omega⟩]
    simp only [selRead]
    rw [pyAdjust_toNat (v := L * 2 - 1) (by omega) (by rw [hrows1]; omega)
        (by omega),
      pyAdjust_toNat (v := S * 2 + 1) (by omega) (by rw [hcols1]; omega)
        (by omega),
      pyAdjust_toNat (v := L * 2 - 1) (by omega) (by rw [hrows2]; omega)
        (by omega),
      pyAdjust_toNat (v := S * 2 + 1) (by omega) (by rw [hcols2]; omega)
        (by omega),
      show 2 * L - 1 + 2 * (m + 1) = L * 2 - 1 + 2 * m + 2 from by omega,
      show 2 * S + 1 + 2 * n = S * 2 + 1 + 2 * n from by ring]
  · intro m n hm hn
    show (outDYC g (computeGrid g XG YG ilb jlb iub jub L S).1
      (computeGrid g XG YG ilb jlb iub jub L S).2 ilb jlb iub jub L S).data m n
      = _
    simp only [outDYC]
    rw [fillOver_data,
      sliceLen_count2e ((L : ℤ) * 2 + 1) ((iub - ilb) * L)
        (by omega) (by omega) e3i (by rw [hrows1]; omega),
      sliceLen_count2e ((S : ℤ) * 2 - 1) ((jub - jlb) * S + 1)
        (by omega) (by omega) (by omega) (by rw [hcols1]; omega),
      if_pos ⟨by omega, by omega⟩]
    simp only [selRead]
    rw [pyAdjust_toNat (v := L * 2 + 1) (by omega) (by rw [hrows1]; omega)
        (by omega),
      pyAdjust_toNat (v := S * 2 - 1) (by omega) (by rw [hcols1]; omega)
        (by omega),
      pyAdjust_toNat (v := L * 2 + 1) (by omega) (by rw [hrows2]; omega)
        (by omega),
      pyAdjust_toNat (v := S * 2 - 1) (by omega) (by rw [hcols2]; omega)
        (by omega),
      show 2 * S - 1 + 2 * (n + 1) = S * 2 - 1 + 2 * n + 2 from by omega,
      show 2 * L + 1 + 2 * m = L * 2 + 1 + 2 * m from by ring]
  · intro m n hm hn
    show (outDXV g (computeGrid g XG YG ilb jlb iub jub L S).1
      (computeGrid g XG YG ilb jlb iub jub L S).2 ilb jlb iub jub L S).data m n
      = _
    simp only [outDXV]
    rw [fillOver_data,
      sliceLen_count2e ((L : ℤ) * 2 - 1) ((iub - ilb) * L + 1)
        (by omega) (by omega) (by omega) (by rw [hrows1]; omega),
      sliceLen_count2e ((S : ℤ) * 2) ((jub - jlb) * S + 1)
        (by omega) (by omega) (by omega) (by rw [hcols1]; omega),
      if_pos ⟨by omega, by omega⟩]
    simp only [selRead]
    rw [pyAdjust_toNat (v := L * 2 - 1) (by omega) (by rw [hrows1]; omega)
        (by omega),
      pyAdjust_toNat (v := S * 2) (by omega) (by rw [hcols1]; omega) (by omega),
      pyAdjust_toNat (v := L * 2 - 1) (by omega) (by rw [hrows2]; omega)
        (by omega),
      pyAdjust_toNat (v := S * 2) (by omega) (by rw [hcols2]; omega) (by omega),
      show 2 * L - 1 + 2 * (m + 1) = L * 2 - 1 + 2 * m + 2 from by omega,
      show 2 * S + 2 * n = S * 2 + 2 * n from by ring]
  · intro m n hm hn
    show (outDYF g (computeGrid g XG YG ilb jlb iub jub L S).1
      (computeGrid g XG YG ilb jlb iub jub L S).2 ilb jlb iub jub L S).data m n
      = _
    simp only [outDYF]
    rw [fillOver_data,
      sliceLen_count2e ((L : ℤ) * 2 + 1) ((iub - ilb) * L)
        (by omega) (by omega) e3i (by rw [hrows1]; omega),
      sliceLen_count2e ((S : ℤ) * 2) ((jub - jlb) * S)
        (by omega) (by omega) e3j (by rw [hcols1]; omega),
      if_pos ⟨by omega, by omega⟩]
    simp only [selRead]
    rw [pyAdjust_toNat (v := L * 2 + 1) (by omega) (by rw [hrows1]; omega)
        (by omega),
      pyAdjust_toNat (v := S * 2) (by omega) (by rw [hcols1]; omega) (by omega),
      pyAdjust_toNat (v := L * 2 + 1) (by omega) (by rw [hrows2]; omega)
        (by omega),
      pyAdjust_toNat (v := S * 2) (by omega) (by rw [hcols2]; omega) (by omega),
      show 2 * S + 2 * (n + 1) = S * 2 + 2 * n + 2 from by ring,
      show 2 * L + 1 + 2 * m = L * 2 + 1 + 2 * m from by ring]
  · intro m n hm hn
    show (outDXF g (computeGrid g XG YG ilb jlb iub jub L S).1
      (computeGrid g XG YG ilb jlb iub jub L S).2 ilb jlb iub jub L S).data m n
      = _
    simp only [outDXF]
    rw [fillOver_data,
      sliceLen_count2e ((L : ℤ) * 2) ((iub - ilb) * L)
        (by omega) (by omega) e3i (by rw [hrows1]; omega),
      sliceLen_count2e ((S : ℤ) * 2 + 1) ((jub - jlb) * S)
        (by omega) (by omega) e3j (by rw [hcols1]; omega),
      if_pos ⟨by omega, by omega⟩]
    simp only [selRead]
    rw [pyAdjust_toNat (v := L * 2) (by omega) (by rw [hrows1]; omega) (by omega),
      pyAdjust_toNat (v := S * 2 + 1) (by omega) (by rw [hcols1]; omega)
        (by omega),
      pyAdjust_toNat (v := L * 2) (by omega) (by rw [hrows2]; omega) (by omega),
      pyAdjust_toNat (v := S * 2 + 1) (by omega) (by rw [hcols2]; omega)
        (by omega),
      show 2 * L + 2 * (m + 1) = L * 2 + 2 * m + 2 from by ring,
      show 2 * S + 1 + 2 * n = S * 2 + 1 + 2 * n from by ring]
  · intro m n hm hn
    show (outDYU g (computeGrid g XG YG ilb jlb iub jub L S).1
      (computeGrid g XG YG ilb jlb iub jub L S).2 ilb jlb iub jub L S).data m n
      = _
    simp only [outDYU]
    rw [fillOver_data,
      sliceLen_count2e (2 * (L : ℤ)) ((iub - ilb) * L + 1)
        (by omega) (by omega) (by omega) (by rw [hrows1]; omega),
      sliceLen_count2e (2 * (S : ℤ) - 1) ((jub - jlb) * S + 1)
        (by omega) (by omega) (by omega) (by rw [hcols1]; omega),
      if_pos ⟨by omega, by omega⟩]
    simp only [selRead]
    rw [pyAdjust_toNat (v := L * 2) (by omega) (by rw [hrows1]; omega) (by omega),
      pyAdjust_toNat (v := S * 2 - 1) (by omega) (by rw [hcols1]; omega)
        (by omega),
      pyAdjust_toNat (v := L * 2) (by omega) (by rw [hrows2]; omega) (by omega),
      pyAdjust_toNat (v := S * 2 - 1) (by omega) (by rw [hcols2]; omega)
        (by omega),
      show 2 * S - 1 + 2 * (n + 1) = S * 2 - 1 + 2 * n + 2 from by omega,
      show 2 * L + 2 * m = L * 2 + 2 * m from by ring]

theorem spec2_c5_edge_lengths_witness :
    1 ≤ (1 : ℕ) ∧
    (getOut (regridCore flatGeod kern1 gX5 gY5 1 1 2 2 1 1)).DXG.data 0 0 =
      (flatGeod.inv
        ((computeGrid flatGeod gX5 gY5 1 1 2 2 1 1).1.data
          (1 * 2 + 2 * 0) (1 * 2 + 2 * 0))
        ((computeGrid flatGeod gX5 gY5 1 1 2 2 1 1).2.data
          (1 * 2 + 2 * 0) (1 * 2 + 2 * 0))
        ((computeGrid flatGeod gX5 gY5 1 1 2 2 1 1).1.data
          (1 * 2 + 2 * 0 + 2) (1 * 2 + 2 * 0))
        ((computeGrid flatGeod gX5 gY5 1 1 2 2 1 1).2.data
          (1 * 2 + 2 * 0 + 2) (1 * 2 + 2 * 0))).2.2 :=
  ⟨by decide,
   (spec2_c5_edge_lengths flatGeod kern1 gX5 gY5 1 1 2 2 1 1 (by decide)
     (by decide) (by decide) (by decide) (by decide) (by decide) (by decide)
     (by decide)).1 0 0 (by decide) (by decide)⟩

/-- C9: the located bounds are normalized by min/max, so `ilb ≤ iub` and
`jlb ≤ jub` always hold after derivation; consequently exchanging the two
user-supplied corner points yields an identical result: the same output
grid and the same returned cell counts. -/
theorem spec2_c9_corner_swap (g : Geodesy)
    (kern : ℚ × ℚ → ℚ × ℚ → ℚ × ℚ → ℚ × ℚ → ℚ) (XG YG : Mat)
    (lon1 lat1 lon2 lat2 : ℚ) (L S : ℕ) :
    (min (nearest g lon1 lat1 XG YG).1 (nearest g lon2 lat2 XG YG).1 ≤
       max (nearest g lon1 lat1 XG YG).1 (nearest g lon2 lat2 XG YG).1 ∧
     min (nearest g lon1 lat1 XG YG).2.1 (nearest g lon2 lat2 XG YG).2.1 ≤
       max (nearest g lon1 lat1 XG YG).2.1 (nearest g lon2 lat2 XG YG).2.1) ∧
    regrid g kern XG YG lon1 lat1 lon2 lat2 L S =
      regrid g kern XG YG lon2 lat2 lon1 lat1 L S := by
  refine ⟨⟨min_le_max, min_le_max⟩, ?_⟩
  simp only [regrid]
  rw [min_comm ((nearest g lon2 lat2 XG YG).1) ((nearest g lon1 lat1 XG YG).1),
    min_comm ((nearest g lon2 lat2 XG YG).2.1) ((nearest g lon1 lat1 XG YG).2.1),
    max_comm ((nearest g lon2 lat2 XG YG).1) ((nearest g lon1 lat1 XG YG).1),
    max_comm ((nearest g lon2 lat2 XG YG).2.1) ((nearest g lon1 lat1 XG YG).2.1)]

set_option maxRecDepth 8000 in
/-- C10 counterexample: the claim's boundary scenario at a concrete
input.  The located region touches the source-grid boundary (`ilb = 0`),
the padded lower bound `ilb - 1 = -1` makes the seeding slice start
negative, and under Python slice semantics the wrapped selection here is
empty — but `regrid` does not proceed without error: the step-1 seeding
`np.nditer` (`regrid.py` line 137) is constructed over that zero-sized
selection and raises `ValueError: Iteration of zero-sized operands is
not enabled`, so no output is returned at all. -/
theorem spec2_c10_counterexample :
    min (nearest flatGeod (natQ 0) (natQ 1) gX5 gY5).1
      (nearest flatGeod (natQ 1) (natQ 2) gX5 gY5).1 = 0 ∧
    sliceLen ((0 : ℤ) - 1) ((1 : ℤ) + 2) 1 gX5.rows = 0 ∧
    errOf (regrid flatGeod kern1 gX5 gY5 (natQ 0) (natQ 1) (natQ 1) (natQ 2)
      1 1) = some PyErr.valueErrorZeroSize ∧
    errOf (regrid flatGeod kern1 gX5 gY5 (natQ 0) (natQ 1) (natQ 1) (natQ 2)
      1 1) ≠ none :=
  ⟨by decide, by decide, by decide, by decide⟩

/-- C10 amended: for inputs whose located region touches the source-grid
boundary (`ilb = 0`, with the far bound leaving room, `iub + 3 ≤ rows`,
so that the wrapped range is empty), the one-cell-halo access is indeed
never bounds-checked as a range check — but `regrid` does not proceed
silently: the negative padded start wraps to an empty seeding selection
and the seeding iterator construction raises the zero-sized-operands
`ValueError`, so the run fails with that unrelated error and produces no
output. -/
theorem spec2_c10_amended (g : Geodesy)
    (kern : ℚ × ℚ → ℚ × ℚ → ℚ × ℚ → ℚ × ℚ → ℚ) (XG YG : Mat)
    (lon1 lat1 lon2 lat2 : ℚ) (L S : ℕ)
    (h0 : min (nearest g lon1 lat1 XG YG).1 (nearest g lon2 lat2 XG YG).1 = 0)
    (hroom : max (nearest g lon1 lat1 XG YG).1 (nearest g lon2 lat2 XG YG).1 + 3
      ≤ XG.rows) :
    errOf (regrid g kern XG YG lon1 lat1 lon2 lat2 L S)
      = some PyErr.valueErrorZeroSize := by
  have ha : pyAdjust (((min (nearest g lon1 lat1 XG YG).1
      (nearest g lon2 lat2 XG YG).1 : ℕ) : ℤ) - 1) XG.rows
      = (XG.rows : ℤ) - 1 := by
    rw [h0, pyAdjust, if_pos (by omega)]
    omega
  have hb : pyAdjust (((max (nearest g lon1 lat1 XG YG).1
      (nearest g lon2 lat2 XG YG).1 : ℕ) : ℤ) + 2) XG.rows
      = ((max (nearest g lon1 lat1 XG YG).1
          (nearest g lon2 lat2 XG YG).1 : ℕ) : ℤ) + 2 :=
    pyAdjust_of_nonneg (by omega) (by omega)
  have hempty : sliceLen (((min (nearest g lon1 lat1 XG YG).1
      (nearest g lon2 lat2 XG YG).1 : ℕ) : ℤ) - 1)
      (((max (nearest g lon1 lat1 XG YG).1
        (nearest g lon2 lat2 XG YG).1 : ℕ) : ℤ) + 2) 1 XG.rows = 0 :=
    sliceLen_zero_of_ge (by rw [ha, hb]; omega)
  simp only [regrid, regridCore]
  rw [if_pos (Or.inl hempty)]
  rfl

set_option maxRecDepth 8000 in
theorem spec2_c10_amended_witness :
    min (nearest flatGeod (natQ 0) (natQ 1) gX5 gY5).1
      (nearest flatGeod (natQ 1) (natQ 2) gX5 gY5).1 = 0 ∧
    max (nearest flatGeod (natQ 0) (natQ 1) gX5 gY5).1
      (nearest flatGeod (natQ 1) (natQ 2) gX5 gY5).1 + 3 ≤ gX5.rows ∧
    errOf (regrid flatGeod kern1 gX5 gY5 (natQ 0) (natQ 1) (natQ 1) (natQ 2)
      1 1) = some PyErr.valueErrorZeroSize :=
  ⟨by decide, by decide,
   spec2_c10_amended flatGeod kern1 gX5 gY5 (natQ 0) (natQ 1) (natQ 1) (natQ 2)
     1 1 (by decide) (by decide)⟩

set_option maxRecDepth 8000 in
/-- C6 counterexample: an interior input (nonempty seeding selection)
with `lon_subscale = 0` (a subscale factor `< 1`).  `regrid` does not
fail with `InvalidSubscale`: it fails with the Python `ValueError` raised
by the zero-step slice of step 2a. -/
theorem spec2_c6_counterexample :
    errOf (regrid flatGeod kern1 gX5 gY5 (natQ 1) (natQ 1) (natQ 2) (natQ 2)
      0 1) = some PyErr.valueErrorZeroStep ∧
    errOf (regrid flatGeod kern1 gX5 gY5 (natQ 1) (natQ 1) (natQ 2) (natQ 2)
      0 1) ≠ some PyErr.invalidSubscale :=
  ⟨by decide, by decide⟩

/-- C6 amended: `regrid` performs no subscale validation and never raises
`InvalidSubscale`.  On inputs whose step-1 seeding selection is nonempty
(so the seeding iterator constructs and the run reaches step 2a), a
subscale factor `< 1` (i.e. 0 on the natural numbers) makes the step-2a
slicing of the compute grid use slice step 0, and the run fails with
Python's `ValueError: slice step cannot be zero`.  (On inputs whose
seeding selection is empty, the zero-sized-operands `ValueError` at the
seeding iterator fires first, for any subscale.) -/
theorem spec2_c6_amended (g : Geodesy)
    (kern : ℚ × ℚ → ℚ × ℚ → ℚ × ℚ → ℚ × ℚ → ℚ) (XG YG : Mat)
    (lon1 lat1 lon2 lat2 : ℚ) (L S : ℕ)
    (hsr : sliceLen (((min (nearest g lon1 lat1 XG YG).1
        (nearest g lon2 lat2 XG YG).1 : ℕ) : ℤ) - 1)
      (((max (nearest g lon1 lat1 XG YG).1
        (nearest g lon2 lat2 XG YG).1 : ℕ) : ℤ) + 2) 1 XG.rows ≠ 0)
    (hsc : sliceLen (((min (nearest g lon1 lat1 XG YG).2.1
        (nearest g lon2 lat2 XG YG).2.1 : ℕ) : ℤ) - 1)
      (((max (nearest g lon1 lat1 XG YG).2.1
        (nearest g lon2 lat2 XG YG).2.1 : ℕ) : ℤ) + 2) 1 XG.cols ≠ 0)
    (h : L < 1 ∨ S < 1) :
    errOf (regrid g kern XG YG lon1 lat1 lon2 lat2 L S)
      = some PyErr.valueErrorZeroStep := by
  simp only [regrid, regridCore]
  rw [if_neg (not_or.mpr ⟨hsr, hsc⟩), if_pos (by omega)]
  rfl

set_option maxRecDepth 8000 in
theorem spec2_c6_amended_witness :
    (sliceLen (((min (nearest flatGeod (natQ 1) (natQ 1) gX5 gY5).1
        (nearest flatGeod (natQ 2) (natQ 2) gX5 gY5).1 : ℕ) : ℤ) - 1)
      (((max (nearest flatGeod (natQ 1) (natQ 1) gX5 gY5).1
        (nearest flatGeod (natQ 2) (natQ 2) gX5 gY5).1 : ℕ) : ℤ) + 2) 1
      gX5.rows ≠ 0) ∧
    ((0 : ℕ) < 1 ∨ (1 : ℕ) < 1) ∧
    errOf (regrid flatGeod kern1 gX5 gY5 (natQ 1) (natQ 1) (natQ 2) (natQ 2)
      0 1) = some PyErr.valueErrorZeroStep :=
  ⟨by decide, by decide,
   spec2_c6_amended flatGeod kern1 gX5 gY5 (natQ 1) (natQ 1) (natQ 2) (natQ 2)
     0 1 (by decide) (by decide) (by decide)⟩

set_option maxRecDepth 8000 in
/-- C7 counterexample: a concrete interior input whose two located
indices coincide in the first axis.  `regrid` does fail rather than
return an output grid, but not with `InvalidRegion`: the first step-4
iterator (DXG's, over the zero-sized `outgrid[XG][:-1, :]` view) raises
numpy's zero-sized-operands `ValueError`. -/
theorem spec2_c7_counterexample :
    (nearest flatGeod (natQ 1) (natQ 1) gX5 gY5).1
      = (nearest flatGeod (natQ 1) (natQ 3) gX5 gY5).1 ∧
    errOf (regrid flatGeod kern1 gX5 gY5 (natQ 1) (natQ 1) (natQ 1) (natQ 3)
      1 1) = some PyErr.valueErrorZeroSize ∧
    errOf (regrid flatGeod kern1 gX5 gY5 (natQ 1) (natQ 1) (natQ 1) (natQ 3)
      1 1) ≠ some PyErr.invalidRegion :=
  ⟨by decide, by decide, by decide⟩

/-- C7 amended: `regrid` performs no degenerate-region check and never
raises `InvalidRegion`.  When the two located indices coincide in an
axis (on an interior region with subscales at least 1, so that the
earlier stages succeed), the run does fail before returning an output
grid — but with numpy's zero-sized-operands `ValueError`, raised at the
first step-4 nditer over an empty field selection (DXG's
`outgrid[XG][:-1, :]` for `i1 = i2`, DYG's `outgrid[XG][:, :-1]` for
`j1 = j2`), not with `InvalidRegion`. -/
theorem spec2_c7_amended (g : Geodesy)
    (kern : ℚ × ℚ → ℚ × ℚ → ℚ × ℚ → ℚ × ℚ → ℚ) (XG YG : Mat)
    (lon1 lat1 lon2 lat2 : ℚ) (L S : ℕ) (hL : 1 ≤ L) (hS : 1 ≤ S)
    (hilb : 1 ≤ min (nearest g lon1 lat1 XG YG).1 (nearest g lon2 lat2 XG YG).1)
    (hiub : max (nearest g lon1 lat1 XG YG).1 (nearest g lon2 lat2 XG YG).1 + 2
      ≤ XG.rows)
    (hjlb : 1 ≤ min (nearest g lon1 lat1 XG YG).2.1
      (nearest g lon2 lat2 XG YG).2.1)
    (hjub : max (nearest g lon1 lat1 XG YG).2.1
      (nearest g lon2 lat2 XG YG).2.1 + 2 ≤ XG.cols)
    (hdeg : (nearest g lon1 lat1 XG YG).1 = (nearest g lon2 lat2 XG YG).1 ∨
      (nearest g lon1 lat1 XG YG).2.1 = (nearest g lon2 lat2 XG YG).2.1) :
    errOf (regrid g kern XG YG lon1 lat1 lon2 lat2 L S)
      = some PyErr.valueErrorZeroSize ∧
    errOf (regrid g kern XG YG lon1 lat1 lon2 lat2 L S)
      ≠ some PyErr.invalidRegion := by
  have hkey : regrid g kern XG YG lon1 lat1 lon2 lat2 L S
      = .error PyErr.valueErrorZeroSize := by
    simp only [regrid]
    exact regridCore_degenerate g kern XG YG _ _ _ _ L S hL hS hilb
      min_le_max hiub hjlb min_le_max hjub
      (by
        rcases hdeg with h | h
        · exact Or.inl (by rw [h, min_self, max_self])
        · exact Or.inr (by rw [h, min_self, max_self]))
  rw [hkey]
  exact ⟨rfl, by decide⟩

set_option maxRecDepth 8000 in
theorem spec2_c7_amended_witness :
    ((nearest flatGeod (natQ 1) (natQ 1) gX5 gY5).1
       = (nearest flatGeod (natQ 1) (natQ 3) gX5 gY5).1 ∨
     (nearest flatGeod (natQ 1) (natQ 1) gX5 gY5).2.1
       = (nearest flatGeod (natQ 1) (natQ 3) gX5 gY5).2.1) ∧
    errOf (regrid flatGeod kern1 gX5 gY5 (natQ 1) (natQ 1) (natQ 1) (natQ 3)
      1 1) = some PyErr.valueErrorZeroSize :=
  ⟨Or.inl (by decide),
   (spec2_c7_amended flatGeod kern1 gX5 gY5 (natQ 1) (natQ 1) (natQ 1) (natQ 3)
     1 1 (by decide) (by decide) (by decide) (by decide) (by decide) (by decide)
     (Or.inl (by decide))).1⟩

end Simplegrid
